import Mathlib

/-!
Shallow embedding of the data-processing pipeline of `app.py` (an e-soccer
statistics dashboard): score-string normalization, league-name
canonicalization, per-player statistics aggregation, market suggestion
ladders, and ranking construction.  Machine reals (Python floats) are
modelled by `ℚ`; goal counts by `ℕ`.  Each definition mirrors the source
function of the same name.
-/

namespace FifaApp

/-! ## Market suggester (`sugerir_over_ft`, `sugerir_over_ht`) -/

/-- `sugerir_over_ft(media_gols_ft)`: high-to-low threshold ladder for the
full-time over suggestion. -/
def sugerir_over_ft (media_gols_ft : ℚ) : String :=
  if media_gols_ft ≥ 6.70 then "Over 5.5 FT"
  else if media_gols_ft ≥ 5.70 then "Over 4.5 FT"
  else if media_gols_ft ≥ 4.50 then "Over 3.5 FT"
  else if media_gols_ft ≥ 3.45 then "Over 2.5 FT"
  else if media_gols_ft ≥ 2.40 then "Over 1.5 FT"
  else if media_gols_ft ≥ 2.00 then "Over 0.5 FT"
  else "Sem Entrada"

/-- `sugerir_over_ht(media_gols_ht)`: high-to-low threshold ladder for the
half-time over suggestion. -/
def sugerir_over_ht (media_gols_ht : ℚ) : String :=
  if media_gols_ht ≥ 2.75 then "Over 2.5 HT"
  else if media_gols_ht ≥ 2.20 then "Over 1.5 HT"
  else if media_gols_ht ≥ 1.70 then "Over 0.5 HT"
  else "Sem Entrada"

/-- Height of a full-time suggestion string in the ordering
`Sem Entrada < Over 0.5 FT < ... < Over 5.5 FT`. -/
def nivelFT (s : String) : Nat :=
  if s = "Over 5.5 FT" then 6
  else if s = "Over 4.5 FT" then 5
  else if s = "Over 3.5 FT" then 4
  else if s = "Over 2.5 FT" then 3
  else if s = "Over 1.5 FT" then 2
  else if s = "Over 0.5 FT" then 1
  else 0

/-- Height of a half-time suggestion string in the ordering
`Sem Entrada < Over 0.5 HT < Over 1.5 HT < Over 2.5 HT`. -/
def nivelHT (s : String) : Nat :=
  if s = "Over 2.5 HT" then 3
  else if s = "Over 1.5 HT" then 2
  else if s = "Over 0.5 HT" then 1
  else 0

/-- Icon selection of `format_gols_ht_com_icone_para_display(gols_ht_media)`.
The source returns the icon followed by the two-decimal rendering of the
average; the appended numeric text does not depend on the branch taken, so
only the icon is modelled. -/
def format_gols_ht_com_icone_para_display (gols_ht_media : ℚ) : String :=
  if gols_ht_media ≥ 2.75 then "🟢"
  else if 2.62 ≤ gols_ht_media ∧ gols_ht_media ≤ 2.74 then "🟡"
  else "⚪"

/-! ## League-name canonicalization maps -/

/-- The `mapa_ligas` lookup of `buscar_resultados` (applied with pandas
`replace`, which leaves unmapped strings unchanged). -/
def mapa_ligas_resultados (s : String) : String :=
  if s = "GT League" then "GT 12 Min"
  else if s = "H2H 8m" then "H2H 8 Min"
  else if s = "Battle 8m" then "Battle 8 Min"
  else if s = "Battle 6m" then "Volta 6 Min"
  else s

/-- The `mapa_ligas` lookup of `carregar_dados_ao_vivo` (applied with pandas
`replace`, which leaves unmapped strings unchanged). -/
def mapa_ligas_ao_vivo (s : String) : String :=
  if s = "E-soccer - H2H GG League - 8 minutos de jogo" then "H2H 8 Min"
  else if s = "Esoccer Battle Volta - 6 Minutos de Jogo" then "Volta 6 Min"
  else if s = "E-soccer - GT Leagues - 12 mins de jogo" then "GT 12 Min"
  else if s = "E-soccer - Battle - 8 minutos de jogo" then "Battle 8 Min"
  else s

/-! ## Score-cell splitting in `buscar_resultados`

A score cell is coerced to string, spaces are removed, the string is split
on the first literal `x`, the two parts are reindexed to exactly two columns
(missing part becomes the empty string), and each part is parsed with
`pd.to_numeric(..., errors="coerce").fillna(0).astype(int)`: a string of
digits parses to its value, anything else becomes 0.  `Total` is the sum of
the two numeric columns. -/

/-- Parse a list of characters as a base-10 natural number; `none` when the
list is empty or contains a non-digit (the `errors="coerce"` outcome). -/
def parseDigits : List Char → Option Nat
  | [] => none
  | cs =>
    if cs.all Char.isDigit then
      some (cs.foldl (fun n c => n * 10 + (c.toNat - 48)) 0)
    else none

/-- `pd.to_numeric(part, errors="coerce").fillna(0)` for one split part. -/
def coerceOr0 (cs : List Char) : Nat :=
  (parseDigits cs).getD 0

/-- Split one score cell into its Home and Away numeric components, as the
normalizer does: remove spaces, split on the first `x`, coerce each part. -/
def splitScoreCell (s : String) : Nat × Nat :=
  let cs := s.toList.filter (fun c => c ≠ ' ')
  match cs.findIdx? (fun c => c = 'x') with
  | none => (coerceOr0 cs, coerceOr0 [])
  | some k => (coerceOr0 (cs.take k), coerceOr0 (cs.drop (k + 1)))

/-- The derived `Total` column for one score cell: sum of the two split
components. -/
def totalScoreCell (s : String) : Nat :=
  (splitScoreCell s).1 + (splitScoreCell s).2

/-! ## Match records

One row of the normalized results table produced by `buscar_resultados`.
The `Total HT`/`Total FT` columns are computed there as the sum of the two
split score components, so they are modelled as derived functions. -/

structure Match where
  data : String
  liga : String
  mandante : String
  visitante : String
  mandanteHT : Nat
  visitanteHT : Nat
  mandanteFT : Nat
  visitanteFT : Nat
deriving DecidableEq

/-- The `Total HT` column: `Mandante HT + Visitante HT`. -/
def totalHT (r : Match) : Nat := r.mandanteHT + r.visitanteHT

/-- The `Total FT` column: `Mandante FT + Visitante FT`. -/
def totalFT (r : Match) : Nat := r.mandanteFT + r.visitanteFT

/-- A player appears in a row as home or away. -/
def participa (p : String) (r : Match) : Prop :=
  r.mandante = p ∨ r.visitante = p

instance (p : String) (r : Match) : Decidable (participa p r) := by
  unfold participa; infer_instance

/-- Number of sides of a row occupied by player `p` (2 when a row lists the
same player on both sides). -/
def participaMult (p : String) (r : Match) : Nat :=
  (if r.mandante = p then 1 else 0) + (if r.visitante = p then 1 else 0)

/-! ## Per-league player statistics (`calcular_estatisticas_jogador`) -/

/-- The counter dictionary of `calcular_estatisticas_jogador` (the `zeros`
keys). -/
structure PlayerLigaStats where
  jogos_total : Nat
  gols_marcados : Nat
  gols_sofridos : Nat
  gols_marcados_ht : Nat
  gols_sofridos_ht : Nat
  over_05_ht_hits : Nat
  over_15_ht_hits : Nat
  over_25_ht_hits : Nat
  btts_ht_hits : Nat
  over_05_ft_hits : Nat
  over_15_ft_hits : Nat
  over_25_ft_hits : Nat
  over_35_ft_hits : Nat
  over_45_ft_hits : Nat
  over_55_ft_hits : Nat
  over_65_ft_hits : Nat
  btts_ft_hits : Nat
deriving DecidableEq

/-- The all-zero `zeros` dictionary. -/
def zerosPL : PlayerLigaStats :=
  ⟨0, 0, 0, 0, 0, 0, 0, 0, 0, 0, 0, 0, 0, 0, 0, 0, 0⟩

/-- The inner `acum(jogo, casa)` accumulator of
`calcular_estatisticas_jogador`. -/
def acum (s : PlayerLigaStats) (jogo : Match) (casa : Bool) : PlayerLigaStats :=
  let gf_ft := if casa then jogo.mandanteFT else jogo.visitanteFT
  let ga_ft := if casa then jogo.visitanteFT else jogo.mandanteFT
  let gf_ht := if casa then jogo.mandanteHT else jogo.visitanteHT
  let ga_ht := if casa then jogo.visitanteHT else jogo.mandanteHT
  { s with
    gols_marcados := s.gols_marcados + gf_ft
    gols_sofridos := s.gols_sofridos + ga_ft
    gols_marcados_ht := s.gols_marcados_ht + gf_ht
    gols_sofridos_ht := s.gols_sofridos_ht + ga_ht
    over_05_ht_hits := s.over_05_ht_hits + (if totalHT jogo > 0 then 1 else 0)
    over_15_ht_hits := s.over_15_ht_hits + (if totalHT jogo > 1 then 1 else 0)
    over_25_ht_hits := s.over_25_ht_hits + (if totalHT jogo > 2 then 1 else 0)
    btts_ht_hits := s.btts_ht_hits + (if gf_ht > 0 ∧ ga_ht > 0 then 1 else 0)
    over_05_ft_hits := s.over_05_ft_hits + (if totalFT jogo > 0 then 1 else 0)
    over_15_ft_hits := s.over_15_ft_hits + (if totalFT jogo > 1 then 1 else 0)
    over_25_ft_hits := s.over_25_ft_hits + (if totalFT jogo > 2 then 1 else 0)
    over_35_ft_hits := s.over_35_ft_hits + (if totalFT jogo > 3 then 1 else 0)
    over_45_ft_hits := s.over_45_ft_hits + (if totalFT jogo > 4 then 1 else 0)
    over_55_ft_hits := s.over_55_ft_hits + (if totalFT jogo > 5 then 1 else 0)
    over_65_ft_hits := s.over_65_ft_hits + (if totalFT jogo > 6 then 1 else 0)
    btts_ft_hits := s.btts_ft_hits + (if gf_ft > 0 ∧ ga_ft > 0 then 1 else 0) }

/-- Main body of `calcular_estatisticas_jogador`: filter the player's home
rows and away rows in the given league, set `jogos_total` to their joint
count, then accumulate home rows and away rows with `acum`. -/
def calcular_estatisticas_jogador_corpo (df : List Match) (jogador liga : String) :
    PlayerLigaStats :=
  let jm := df.filter (fun r => decide (r.mandante = jogador ∧ r.liga = liga))
  let jv := df.filter (fun r => decide (r.visitante = jogador ∧ r.liga = liga))
  let s0 := { zerosPL with jogos_total := jm.length + jv.length }
  jv.foldl (fun s j => acum s j false) (jm.foldl (fun s j => acum s j true) s0)

/-- `calcular_estatisticas_jogador(df, jogador, liga)`: zeros on an empty
table, otherwise the filtered accumulation. -/
def calcular_estatisticas_jogador (df : List Match) (jogador liga : String) :
    PlayerLigaStats :=
  if df.isEmpty then zerosPL
  else calcular_estatisticas_jogador_corpo df jogador liga

/-! ## All-players statistics (`calcular_estatisticas_todos_jogadores`)

The source builds a `defaultdict` keyed by player name and one row per key
in the resulting frame; the dictionary is modelled as a total map from
player names to counter records (non-participants keep the all-zero
default and correspond to no row). -/

/-- The per-player counter record of the all-players aggregation. -/
structure TodosStats where
  jogos_total : Nat
  vitorias : Nat
  derrotas : Nat
  empates : Nat
  gols_marcados : Nat
  gols_sofridos : Nat
  gols_marcados_ht : Nat
  gols_sofridos_ht : Nat
  clean_sheets : Nat
  over_05_ht_hits : Nat
  over_15_ht_hits : Nat
  over_25_ht_hits : Nat
  btts_ht_hits : Nat
  over_05_ft_hits : Nat
  over_15_ft_hits : Nat
  over_25_ft_hits : Nat
  over_35_ft_hits : Nat
  over_45_ft_hits : Nat
  over_55_ft_hits : Nat
  over_65_ft_hits : Nat
  btts_ft_hits : Nat
  under_25_ft_hits : Nat
  ligas_atuantes : List String
deriving DecidableEq

/-- The `defaultdict` default: every counter 0, no leagues. -/
def zerosTodos : TodosStats :=
  ⟨0, 0, 0, 0, 0, 0, 0, 0, 0, 0, 0, 0, 0, 0, 0, 0, 0, 0, 0, 0, 0, 0, []⟩

/-- `set.add` on the league set (modelled as a duplicate-free list). -/
def addLiga (ls : List String) (liga : String) : List String :=
  if liga ∈ ls then ls else liga :: ls

/-- All updates one row applies to one of its two players: league set, game
count, goals, win/loss/draw by full-time comparison, clean sheet when the
opponent scored 0, the over/BTTS/under hit counters. -/
def updLado (s : TodosStats) (r : Match) (casa : Bool) : TodosStats :=
  let gf := if casa then r.mandanteFT else r.visitanteFT
  let ga := if casa then r.visitanteFT else r.mandanteFT
  let gfht := if casa then r.mandanteHT else r.visitanteHT
  let gaht := if casa then r.visitanteHT else r.mandanteHT
  { s with
    ligas_atuantes := addLiga s.ligas_atuantes r.liga
    jogos_total := s.jogos_total + 1
    gols_marcados := s.gols_marcados + gf
    gols_sofridos := s.gols_sofridos + ga
    gols_marcados_ht := s.gols_marcados_ht + gfht
    gols_sofridos_ht := s.gols_sofridos_ht + gaht
    vitorias := s.vitorias + (if gf > ga then 1 else 0)
    derrotas := s.derrotas + (if gf < ga then 1 else 0)
    empates := s.empates + (if ¬ gf > ga ∧ ¬ gf < ga then 1 else 0)
    clean_sheets := s.clean_sheets + (if ga = 0 then 1 else 0)
    over_05_ht_hits := s.over_05_ht_hits + (if totalHT r > 0 then 1 else 0)
    over_15_ht_hits := s.over_15_ht_hits + (if totalHT r > 1 then 1 else 0)
    over_25_ht_hits := s.over_25_ht_hits + (if totalHT r > 2 then 1 else 0)
    btts_ht_hits := s.btts_ht_hits + (if r.mandanteHT > 0 ∧ r.visitanteHT > 0 then 1 else 0)
    over_05_ft_hits := s.over_05_ft_hits + (if totalFT r > 0 then 1 else 0)
    over_15_ft_hits := s.over_15_ft_hits + (if totalFT r > 1 then 1 else 0)
    over_25_ft_hits := s.over_25_ft_hits + (if totalFT r > 2 then 1 else 0)
    over_35_ft_hits := s.over_35_ft_hits + (if totalFT r > 3 then 1 else 0)
    over_45_ft_hits := s.over_45_ft_hits + (if totalFT r > 4 then 1 else 0)
    over_55_ft_hits := s.over_55_ft_hits + (if totalFT r > 5 then 1 else 0)
    over_65_ft_hits := s.over_65_ft_hits + (if totalFT r > 6 then 1 else 0)
    btts_ft_hits := s.btts_ft_hits + (if r.mandanteFT > 0 ∧ r.visitanteFT > 0 then 1 else 0)
    under_25_ft_hits := s.under_25_ft_hits + (if totalFT r > 2 then 0 else 1) }

/-- One loop iteration of `calcular_estatisticas_todos_jogadores`: update
the home player's record, then the away player's record (on the map that
already holds the home update, so a row listing the same player twice
updates one shared record twice, as the Python dictionary does). -/
def processRow (f : String → TodosStats) (r : Match) : String → TodosStats :=
  let f1 := Function.update f r.mandante (updLado (f r.mandante) r true)
  Function.update f1 r.visitante (updLado (f1 r.visitante) r false)

/-- `calcular_estatisticas_todos_jogadores(df_resultados)` as the map from
player names to their accumulated counters. -/
def calcular_estatisticas_todos_jogadores (df : List Match) : String → TodosStats :=
  df.foldl processRow (fun _ => zerosTodos)

/-! ## Derived rate/average columns

pandas evaluates `counter / jogos_total * 100` and `.fillna(0)`; the only
`NaN` arises from `0 / 0`, so the division-with-zero-default below is the
exact value of each derived column. -/

/-- `hits / total * 100` with the `fillna(0)` zero-sample default. -/
def pctDiv (hits total : Nat) : ℚ :=
  if total = 0 then 0 else (hits : ℚ) / (total : ℚ) * 100

/-- `amount / total` with the `fillna(0)` zero-sample default. -/
def mediaDiv (amount total : Nat) : ℚ :=
  if total = 0 then 0 else (amount : ℚ) / (total : ℚ)

/-- `Win Rate (%)`. -/
def winRate (s : TodosStats) : ℚ := pctDiv s.vitorias s.jogos_total

/-- `Derrota Rate (%)`. -/
def derrotaRate (s : TodosStats) : ℚ := pctDiv s.derrotas s.jogos_total

/-- `Gols Marcados Média`. -/
def golsMarcadosMedia (s : TodosStats) : ℚ := mediaDiv s.gols_marcados s.jogos_total

/-- `Gols Sofridos Média`. -/
def golsSofridosMedia (s : TodosStats) : ℚ := mediaDiv s.gols_sofridos s.jogos_total

/-- `Clean Sheets (%)`. -/
def cleanSheetsPct (s : TodosStats) : ℚ := pctDiv s.clean_sheets s.jogos_total

/-- `Over 0.5 HT (%)`. -/
def over05HTPct (s : TodosStats) : ℚ := pctDiv s.over_05_ht_hits s.jogos_total

/-- `Over 1.5 HT (%)`. -/
def over15HTPct (s : TodosStats) : ℚ := pctDiv s.over_15_ht_hits s.jogos_total

/-- `Over 2.5 HT (%)`. -/
def over25HTPct (s : TodosStats) : ℚ := pctDiv s.over_25_ht_hits s.jogos_total

/-- `BTTS HT (%)`. -/
def bttsHTPct (s : TodosStats) : ℚ := pctDiv s.btts_ht_hits s.jogos_total

/-- `Over 0.5 FT (%)`. -/
def over05FTPct (s : TodosStats) : ℚ := pctDiv s.over_05_ft_hits s.jogos_total

/-- `Over 1.5 FT (%)`. -/
def over15FTPct (s : TodosStats) : ℚ := pctDiv s.over_15_ft_hits s.jogos_total

/-- `Over 2.5 FT (%)`. -/
def over25FTPct (s : TodosStats) : ℚ := pctDiv s.over_25_ft_hits s.jogos_total

/-- `Over 3.5 FT (%)`. -/
def over35FTPct (s : TodosStats) : ℚ := pctDiv s.over_35_ft_hits s.jogos_total

/-- `Over 4.5 FT (%)`. -/
def over45FTPct (s : TodosStats) : ℚ := pctDiv s.over_45_ft_hits s.jogos_total

/-- `Over 5.5 FT (%)`. -/
def over55FTPct (s : TodosStats) : ℚ := pctDiv s.over_55_ft_hits s.jogos_total

/-- `Over 6.5 FT (%)`. -/
def over65FTPct (s : TodosStats) : ℚ := pctDiv s.over_65_ft_hits s.jogos_total

/-- `BTTS FT (%)`. -/
def bttsFTPct (s : TodosStats) : ℚ := pctDiv s.btts_ft_hits s.jogos_total

/-- `Under 2.5 FT (%)`. -/
def under25FTPct (s : TodosStats) : ℚ := pctDiv s.under_25_ft_hits s.jogos_total

/-! ## Recency-windowed statistics (`get_recent_player_stats`)

The source iterates chronologically over the player's last `num_games`
rows, accumulating hit counters and the *current* streak counters for
win/loss/draw, BTTS-FT and Over-2.5-FT. -/

/-- The `current_result` classification of one game. -/
inductive Outcome where
  | win
  | loss
  | draw
deriving DecidableEq

/-- Counter part of the `stats` dictionary of `get_recent_player_stats`
(the keys set before the percentage phase). -/
structure RecentCounts where
  gols_marcados_ft : Nat
  gols_sofridos_ft : Nat
  gols_marcados_ht : Nat
  gols_sofridos_ht : Nat
  over_05_ht_hits : Nat
  over_15_ht_hits : Nat
  over_25_ht_hits : Nat
  btts_ht_hits : Nat
  over_05_ft_hits : Nat
  over_15_ft_hits : Nat
  over_25_ft_hits : Nat
  over_35_ft_hits : Nat
  over_45_ft_hits : Nat
  over_55_ft_hits : Nat
  over_65_ft_hits : Nat
  btts_ft_hits : Nat
  under_25_ft_hits : Nat
  sequencia_vitorias : Nat
  sequencia_derrotas : Nat
  sequencia_empates : Nat
  sequencia_btts : Nat
  sequencia_over_25_ft : Nat
deriving DecidableEq

/-- All-zero initial counters. -/
def zerosRecent : RecentCounts :=
  ⟨0, 0, 0, 0, 0, 0, 0, 0, 0, 0, 0, 0, 0, 0, 0, 0, 0, 0, 0, 0, 0, 0⟩

/-- Loop state of `get_recent_player_stats`: the counters plus the
`last_result` / `last_btts` / `last_over_25_ft` variables. -/
structure RecentLoopState where
  stats : RecentCounts
  last_result : Option Outcome
  last_btts : Option Bool
  last_over_25_ft : Option Bool
deriving DecidableEq

/-- Initial loop state: zero counters, all three `last_*` set to `None`. -/
def recentInit : RecentLoopState := ⟨zerosRecent, none, none, none⟩

/-- The per-game outcome `current_result` of the loop body. -/
def resultadoDe (player : String) (r : Match) : Outcome :=
  let is_home := r.mandante = player
  let gf_ft := if is_home then r.mandanteFT else r.visitanteFT
  let ga_ft := if is_home then r.visitanteFT else r.mandanteFT
  if gf_ft > ga_ft then .win else if gf_ft < ga_ft then .loss else .draw

/-- The per-game `btts_ft_current` boolean of the loop body. -/
def bttsDe (player : String) (r : Match) : Bool :=
  let is_home := r.mandante = player
  let gf_ft := if is_home then r.mandanteFT else r.visitanteFT
  let ga_ft := if is_home then r.visitanteFT else r.mandanteFT
  decide (gf_ft > 0 ∧ ga_ft > 0)

/-- The per-game `over_25_ft_current` boolean of the loop body. -/
def over25De (r : Match) : Bool := decide (totalFT r > 2)

/-- Goal and hit-counter accumulation of one loop iteration (everything the
loop body adds to `stats` before the streak section). -/
def atualizaContadores (player : String) (s : RecentCounts) (r : Match) : RecentCounts :=
  let is_home := r.mandante = player
  let gf_ft := if is_home then r.mandanteFT else r.visitanteFT
  let ga_ft := if is_home then r.visitanteFT else r.mandanteFT
  let gf_ht := if is_home then r.mandanteHT else r.visitanteHT
  let ga_ht := if is_home then r.visitanteHT else r.mandanteHT
  { s with
    gols_marcados_ft := s.gols_marcados_ft + gf_ft
    gols_sofridos_ft := s.gols_sofridos_ft + ga_ft
    gols_marcados_ht := s.gols_marcados_ht + gf_ht
    gols_sofridos_ht := s.gols_sofridos_ht + ga_ht
    over_05_ht_hits := s.over_05_ht_hits + (if totalHT r > 0 then 1 else 0)
    over_15_ht_hits := s.over_15_ht_hits + (if totalHT r > 1 then 1 else 0)
    over_25_ht_hits := s.over_25_ht_hits + (if totalHT r > 2 then 1 else 0)
    btts_ht_hits := s.btts_ht_hits + (if gf_ht > 0 ∧ ga_ht > 0 then 1 else 0)
    over_05_ft_hits := s.over_05_ft_hits + (if totalFT r > 0 then 1 else 0)
    over_15_ft_hits := s.over_15_ft_hits + (if totalFT r > 1 then 1 else 0)
    over_25_ft_hits := s.over_25_ft_hits + (if totalFT r > 2 then 1 else 0)
    under_25_ft_hits := s.under_25_ft_hits + (if totalFT r > 2 then 0 else 1)
    over_35_ft_hits := s.over_35_ft_hits + (if totalFT r > 3 then 1 else 0)
    over_45_ft_hits := s.over_45_ft_hits + (if totalFT r > 4 then 1 else 0)
    over_55_ft_hits := s.over_55_ft_hits + (if totalFT r > 5 then 1 else 0)
    over_65_ft_hits := s.over_65_ft_hits + (if totalFT r > 6 then 1 else 0)
    btts_ft_hits := s.btts_ft_hits + (if bttsDe player r then 1 else 0) }

/-- The win/loss/draw streak section of the loop body: grow the current
outcome's counter when the previous outcome is absent or equal, otherwise
reset all three (1 for the new outcome, 0 for the others). -/
def atualizaSequenciasResultado (s : RecentCounts) (last : Option Outcome)
    (cur : Outcome) : RecentCounts :=
  if last = none ∨ last = some cur then
    match cur with
    | .win => { s with sequencia_vitorias := s.sequencia_vitorias + 1 }
    | .loss => { s with sequencia_derrotas := s.sequencia_derrotas + 1 }
    | .draw => { s with sequencia_empates := s.sequencia_empates + 1 }
  else
    { s with
      sequencia_vitorias := if cur = .win then 1 else 0
      sequencia_derrotas := if cur = .loss then 1 else 0
      sequencia_empates := if cur = .draw then 1 else 0 }

/-- The BTTS streak section of the loop body. -/
def atualizaSequenciaBtts (s : RecentCounts) (last : Option Bool) (cur : Bool) :
    RecentCounts :=
  if last = none ∨ last = some cur then
    if cur then { s with sequencia_btts := s.sequencia_btts + 1 } else s
  else
    { s with sequencia_btts := if cur then 1 else 0 }

/-- The Over-2.5-FT streak section of the loop body. -/
def atualizaSequenciaOver25 (s : RecentCounts) (last : Option Bool) (cur : Bool) :
    RecentCounts :=
  if last = none ∨ last = some cur then
    if cur then { s with sequencia_over_25_ft := s.sequencia_over_25_ft + 1 } else s
  else
    { s with sequencia_over_25_ft := if cur then 1 else 0 }

/-- One iteration of the `for idx, row in player_games.iterrows()` loop:
counter accumulation, the three streak sections, then the `last_*`
variables are set to the current game's outcomes. -/
def recentStep (player : String) (st : RecentLoopState) (r : Match) : RecentLoopState :=
  ⟨atualizaSequenciaOver25
      (atualizaSequenciaBtts
        (atualizaSequenciasResultado (atualizaContadores player st.stats r)
          st.last_result (resultadoDe player r))
        st.last_btts (bttsDe player r))
      st.last_over_25_ft (over25De r),
   some (resultadoDe player r), some (bttsDe player r), some (over25De r)⟩

/-- `DataFrame.tail(n)`: the last `n` elements. -/
def tailN (n : Nat) (l : List Match) : List Match := l.drop (l.length - n)

/-- The player's selected window: rows where the player appears, restricted
to the most recent `num_games`. -/
def playerGames (df : List Match) (player : String) (num_games : Nat) : List Match :=
  tailN num_games (df.filter (fun r => decide (participa player r)))

/-- The returned dictionary of `get_recent_player_stats` for a non-empty
window: the accumulated counters plus the derived averages and
percentages (computed in the `total_jogos > 0` branch). -/
structure RecentStats where
  jogos_recentes : Nat
  counts : RecentCounts
  media_gols_marcados_ft : ℚ
  media_gols_sofridos_ft : ℚ
  media_gols_marcados_ht : ℚ
  media_gols_sofridos_ht : ℚ
  pct_over_05_ht : ℚ
  pct_over_15_ht : ℚ
  pct_over_25_ht : ℚ
  pct_btts_ht : ℚ
  pct_over_05_ft : ℚ
  pct_over_15_ft : ℚ
  pct_over_25_ft : ℚ
  pct_over_35_ft : ℚ
  pct_over_45_ft : ℚ
  pct_over_55_ft : ℚ
  pct_over_65_ft : ℚ
  pct_btts_ft : ℚ
  pct_under_25_ft : ℚ

/-- Final counters of the loop fold over the selected window. -/
def recentCountsDe (df : List Match) (player : String) (num_games : Nat) : RecentCounts :=
  ((playerGames df player num_games).foldl (recentStep player) recentInit).stats

/-- `get_recent_player_stats(df_resultados, player_name, num_games)`:
`none` models the `{}` returned for an empty window; otherwise the loop is
folded chronologically over the window and the derived fields are divided
by the window length. -/
def get_recent_player_stats (df : List Match) (player : String) (num_games : Nat) :
    Option RecentStats :=
  if (playerGames df player num_games).isEmpty then none
  else
    some
      { jogos_recentes := (playerGames df player num_games).length
        counts := recentCountsDe df player num_games
        media_gols_marcados_ft := mediaDiv (recentCountsDe df player num_games).gols_marcados_ft
          (playerGames df player num_games).length
        media_gols_sofridos_ft := mediaDiv (recentCountsDe df player num_games).gols_sofridos_ft
          (playerGames df player num_games).length
        media_gols_marcados_ht := mediaDiv (recentCountsDe df player num_games).gols_marcados_ht
          (playerGames df player num_games).length
        media_gols_sofridos_ht := mediaDiv (recentCountsDe df player num_games).gols_sofridos_ht
          (playerGames df player num_games).length
        pct_over_05_ht := pctDiv (recentCountsDe df player num_games).over_05_ht_hits
          (playerGames df player num_games).length
        pct_over_15_ht := pctDiv (recentCountsDe df player num_games).over_15_ht_hits
          (playerGames df player num_games).length
        pct_over_25_ht := pctDiv (recentCountsDe df player num_games).over_25_ht_hits
          (playerGames df player num_games).length
        pct_btts_ht := pctDiv (recentCountsDe df player num_games).btts_ht_hits
          (playerGames df player num_games).length
        pct_over_05_ft := pctDiv (recentCountsDe df player num_games).over_05_ft_hits
          (playerGames df player num_games).length
        pct_over_15_ft := pctDiv (recentCountsDe df player num_games).over_15_ft_hits
          (playerGames df player num_games).length
        pct_over_25_ft := pctDiv (recentCountsDe df player num_games).over_25_ft_hits
          (playerGames df player num_games).length
        pct_over_35_ft := pctDiv (recentCountsDe df player num_games).over_35_ft_hits
          (playerGames df player num_games).length
        pct_over_45_ft := pctDiv (recentCountsDe df player num_games).over_45_ft_hits
          (playerGames df player num_games).length
        pct_over_55_ft := pctDiv (recentCountsDe df player num_games).over_55_ft_hits
          (playerGames df player num_games).length
        pct_over_65_ft := pctDiv (recentCountsDe df player num_games).over_65_ft_hits
          (playerGames df player num_games).length
        pct_btts_ft := pctDiv (recentCountsDe df player num_games).btts_ft_hits
          (playerGames df player num_games).length
        pct_under_25_ft := pctDiv (recentCountsDe df player num_games).under_25_ft_hits
          (playerGames df player num_games).length }

/-- Streak counter of the loop state associated with one outcome. -/
def seqDe (s : RecentCounts) : Outcome → Nat
  | .win => s.sequencia_vitorias
  | .loss => s.sequencia_derrotas
  | .draw => s.sequencia_empates

/-! ## Ranking builder (`gerar_ranking`)

A statistics row is modelled as the player name, the `jogos_total` counter
and the numeric value of each named column.  The final display pass of the
source (column selection/renaming and string formatting of percentages,
averages and differentials) transforms each kept row cell-wise and is not
modelled; it neither adds, removes nor reorders rows. -/

structure StatsRow where
  jogador : String
  jogos_total : Nat
  valores : String → ℚ

/-- Ordering used by `sort_values(by=metrica, ascending=ascendente)` on the
metric values. -/
def metricaLE (ascendente : Bool) (x y : ℚ) : Prop :=
  if ascendente then x ≤ y else y ≤ x

instance (ascendente : Bool) : DecidableRel (metricaLE ascendente) := fun x y => by
  unfold metricaLE; infer_instance

/-- Row ordering induced by the metric column. -/
def rankLE (ascendente : Bool) (metrica : String) (a b : StatsRow) : Prop :=
  metricaLE ascendente (a.valores metrica) (b.valores metrica)

instance (ascendente : Bool) (metrica : String) :
    DecidableRel (rankLE ascendente metrica) := fun a b => by
  unfold rankLE metricaLE; infer_instance

instance (ascendente : Bool) (metrica : String) :
    IsTotal StatsRow (rankLE ascendente metrica) := ⟨by
  intro a b; unfold rankLE metricaLE; split_ifs <;> exact le_total _ _⟩

instance (ascendente : Bool) (metrica : String) :
    IsTrans StatsRow (rankLE ascendente metrica) := ⟨by
  intro a b c; unfold rankLE metricaLE; split_ifs <;> intro h1 h2 <;> linarith⟩

/-- The `medalhas` dictionary `{0: gold, 1: silver, 2: bronze}`. -/
def medalha (i : Nat) : Option String :=
  if i = 0 then some "🥇" else if i = 1 then some "🥈" else if i = 2 then some "🥉" else none

/-- Index-aware medal prefixing of the player column (ranks 0-2). -/
def aplicar_medalhas_aux : Nat → List StatsRow → List StatsRow
  | _, [] => []
  | i, r :: t =>
    (match medalha i with
      | some m => { r with jogador := m ++ " " ++ r.jogador }
      | none => r) :: aplicar_medalhas_aux (i + 1) t

/-- Medal prefixing after `reset_index(drop=True)`. -/
def aplicar_medalhas (rows : List StatsRow) : List StatsRow :=
  aplicar_medalhas_aux 0 rows

/-- Result of `gerar_ranking`: the `N/A` placeholder frame (one row of
column/value pairs) or the ranked statistics rows. -/
inductive RankingResult where
  | placeholder (row : List (String × String))
  | table (rows : List StatsRow)

/-- The `dummy_data` single row: `Jogador` plus every other display column
mapped to `"N/A"`. -/
def linha_na (colunas_exibicao : List String) : List (String × String) :=
  ("Jogador", "N/A") :: (colunas_exibicao.filter (fun c => c ≠ "Jogador")).map
    (fun c => (c, "N/A"))

/-- `gerar_ranking(df_stats_base, metrica_principal, colunas_exibicao, ...,
ascendente, min_jogos, top_n)` (source defaults: `min_jogos = 10`,
`top_n = 20`): filter by minimum games, placeholder when empty, otherwise
sort by the metric, truncate to `top_n` and prefix medals. -/
def gerar_ranking (df_stats_base : List StatsRow) (metrica_principal : String)
    (colunas_exibicao : List String) (ascendente : Bool) (min_jogos top_n : Nat) :
    RankingResult :=
  if (df_stats_base.filter (fun r => decide (min_jogos ≤ r.jogos_total))).isEmpty then
    .placeholder (linha_na colunas_exibicao)
  else
    .table (aplicar_medalhas
      ((List.insertionSort (rankLE ascendente metrica_principal)
        (df_stats_base.filter (fun r => decide (min_jogos ≤ r.jogos_total)))).take top_n))

/-! ## Concrete example tables -/

/-- A three-game table for player `A` with full-time totals 3, 1 and 4. -/
def exemploC1 : List Match :=
  [⟨"d1", "GT 12 Min", "A", "B", 1, 0, 2, 1⟩,
   ⟨"d2", "GT 12 Min", "C", "A", 0, 0, 0, 1⟩,
   ⟨"d3", "GT 12 Min", "A", "D", 1, 1, 2, 2⟩]

/-- A four-game chronological window for player `A` with outcome sequence
win, win, loss, win. -/
def exemploC7 : List Match :=
  [⟨"1", "GT 12 Min", "A", "B", 0, 0, 2, 0⟩,
   ⟨"2", "GT 12 Min", "A", "C", 0, 0, 1, 0⟩,
   ⟨"3", "GT 12 Min", "D", "A", 0, 0, 1, 0⟩,
   ⟨"4", "GT 12 Min", "A", "E", 0, 0, 3, 1⟩]

/-- All-zero fallback record (used only to name the concrete output of
the recency window in the witness below). -/
def recentPadrao : RecentStats :=
  ⟨0, zerosRecent, 0, 0, 0, 0, 0, 0, 0, 0, 0, 0, 0, 0, 0, 0, 0, 0, 0⟩

/-- The concrete recency output for player `A` on the example table. -/
def recentExemplo : RecentStats :=
  (get_recent_player_stats exemploC1 "A" 5).getD recentPadrao

/-- Single-row statistics table for the ranking witness. -/
def linhaW : StatsRow := ⟨"A", 10, fun _ => 0⟩

/-- One-row input table for the ranking witness. -/
def dfW : List StatsRow := [linhaW]

/-- The rows `gerar_ranking` returns on `dfW` with the default cuts. -/
def rowsW : List StatsRow :=
  aplicar_medalhas ((List.insertionSort (rankLE false "M")
    (dfW.filter (fun r => decide (10 ≤ r.jogos_total)))).take 20)

/-! ## Counting lemmas for the aggregation folds -/

lemma calc_jogador_eq_corpo (df : List Match) (jogador liga : String) :
    calcular_estatisticas_jogador df jogador liga =
      calcular_estatisticas_jogador_corpo df jogador liga := by
  cases df with
  | nil => rfl
  | cons r t => rfl

lemma participaMult_eq_one {p : String} {r : Match}
    (hne : r.mandante ≠ r.visitante) (hp : participa p r) : participaMult p r = 1 := by
  unfold participaMult
  rcases hp with h | h
  · rw [if_pos h, if_neg (fun hv => hne (h.trans hv.symm))]
  · rw [if_neg (fun hm => hne (hm.trans h.symm)), if_pos h]

lemma participaMult_eq_zero {p : String} {r : Match}
    (hp : ¬ participa p r) : participaMult p r = 0 := by
  unfold participaMult participa at *
  push_neg at hp
  rw [if_neg hp.1, if_neg hp.2]

lemma participaMult_pos {p : String} {r : Match}
    (hp : participa p r) : 1 ≤ participaMult p r := by
  unfold participaMult
  rcases hp with h | h
  · rw [if_pos h]; omega
  · rw [if_pos h]; omega

lemma processRow_apply (f : String → TodosStats) (r : Match) (p : String) :
    processRow f r p =
      if p = r.visitante then
        updLado (if p = r.mandante then updLado (f p) r true else f p) r false
      else if p = r.mandante then updLado (f p) r true
      else f p := by
  unfold processRow
  by_cases h1 : p = r.visitante <;> by_cases h2 : p = r.mandante <;>
    simp [Function.update, h1, h2] <;> subst_eqs <;> simp_all

/-- Generic per-counter evaluation of the all-players fold: a counter whose
`updLado` increment is a side-independent per-row delta accumulates, for
each player, the delta weighted by the number of sides the player occupies. -/
lemma counter_foldl (g : TodosStats → Nat) (δ : Match → Nat)
    (hupd : ∀ s r casa, g (updLado s r casa) = g s + δ r) :
    ∀ (df : List Match) (f : String → TodosStats) (p : String),
      g (df.foldl processRow f p) =
        g (f p) + (df.map (fun r => participaMult p r * δ r)).sum := by
  intro df
  induction df with
  | nil => intro f p; simp
  | cons r t ih =>
    intro f p
    rw [List.foldl_cons, ih]
    have hrow : g (processRow f r p) = g (f p) + participaMult p r * δ r := by
      rw [processRow_apply]
      unfold participaMult
      by_cases h1 : p = r.visitante <;> by_cases h2 : p = r.mandante
      · rw [if_pos h1, if_pos h2, if_pos h2.symm, if_pos h1.symm, hupd, hupd]; ring
      · rw [if_pos h1, if_neg h2, if_neg (fun h => h2 h.symm), if_pos h1.symm, hupd]; ring
      · rw [if_neg h1, if_pos h2, if_pos h2.symm, if_neg (fun h => h1 h.symm), hupd]; ring
      · rw [if_neg h1, if_neg h2, if_neg (fun h => h2 h.symm), if_neg (fun h => h1 h.symm)]
        ring
    rw [hrow, List.map_cons, List.sum_cons]; ring

/-- Weighted indicator sums collapse to filter lengths on tables whose rows
never list the same player on both sides. -/
lemma sum_indicator_filter (p : String) (pred : Match → Prop) [DecidablePred pred] :
    ∀ df : List Match, (∀ r ∈ df, r.mandante ≠ r.visitante) →
      (df.map (fun r => participaMult p r * (if pred r then 1 else 0))).sum
        = (df.filter (fun r => decide (participa p r ∧ pred r))).length := by
  intro df
  induction df with
  | nil => intro _; simp
  | cons r t ih =>
    intro h
    have hr := h r (List.mem_cons_self r t)
    have ht := ih (fun x hx => h x (List.mem_cons_of_mem r hx))
    rw [List.map_cons, List.sum_cons, List.filter_cons, ht]
    by_cases hp : participa p r
    · by_cases hq : pred r
      · rw [participaMult_eq_one hr hp]
        simp [hp, hq, Nat.add_comm]
      · simp [hp, hq]
    · rw [participaMult_eq_zero hp]
      simp [hp]

/-- Counter evaluation for one side of the per-league fold. -/
lemma acum_counter_foldl (g : PlayerLigaStats → Nat) (δ : Match → Nat) (casa : Bool)
    (hupd : ∀ s j, g (acum s j casa) = g s + δ j) :
    ∀ (l : List Match) (s : PlayerLigaStats),
      g (l.foldl (fun s j => acum s j casa) s) = g s + (l.map δ).sum := by
  intro l
  induction l with
  | nil => intro s; simp
  | cons j t ih =>
    intro s
    rw [List.foldl_cons, ih, hupd, List.map_cons, List.sum_cons]
    ring

lemma sum_ind_eq_countP (pred : Match → Prop) [DecidablePred pred] :
    ∀ l : List Match,
      (l.map (fun r => if pred r then 1 else 0)).sum = l.countP (fun r => decide (pred r)) := by
  intro l
  induction l with
  | nil => simp
  | cons r t ih =>
    rw [List.map_cons, List.sum_cons, List.countP_cons, ih]
    by_cases hq : pred r <;> simp [hq, Nat.add_comm]

lemma countP_or_disjoint (q1 q2 : Match → Prop) [DecidablePred q1] [DecidablePred q2] :
    ∀ df : List Match, (∀ r ∈ df, ¬ (q1 r ∧ q2 r)) →
      df.countP (fun r => decide (q1 r)) + df.countP (fun r => decide (q2 r))
        = df.countP (fun r => decide (q1 r ∨ q2 r)) := by
  intro df
  induction df with
  | nil => intro _; simp
  | cons r t ih =>
    intro h
    have hr := h r (List.mem_cons_self r t)
    have ht := ih (fun x hx => h x (List.mem_cons_of_mem r hx))
    rw [List.countP_cons, List.countP_cons, List.countP_cons, ← ht]
    by_cases h1 : q1 r
    · have h2 : ¬ q2 r := fun hq2 => hr ⟨h1, hq2⟩
      simp [h1, h2]; omega
    · by_cases h2 : q2 r
      · simp [h1, h2]
        all_goals omega
      · simp [h1, h2]

lemma decide_and_comm (P Q : Prop) [Decidable P] [Decidable Q] :
    (decide P && decide Q) = decide (Q ∧ P) := by
  by_cases hP : P <;> by_cases hQ : Q <;> simp [hP, hQ]

/-- Any all-players counter with a side-independent per-row indicator delta
counts, for each player, the filtered rows of that player. -/
lemma todos_counter_filter (g : TodosStats → Nat) (pred : Match → Prop) [DecidablePred pred]
    (hupd : ∀ s r casa, g (updLado s r casa) = g s + (if pred r then 1 else 0))
    (hzero : g zerosTodos = 0)
    (df : List Match) (p : String) (hne : ∀ r ∈ df, r.mandante ≠ r.visitante) :
    g (calcular_estatisticas_todos_jogadores df p)
      = (df.filter (fun r => decide (participa p r ∧ pred r))).length := by
  unfold calcular_estatisticas_todos_jogadores
  rw [counter_foldl g (fun r => if pred r then 1 else 0) hupd df (fun _ => zerosTodos) p,
    sum_indicator_filter p pred df hne]
  simpa using hzero

/-- Any all-players counter incremented by exactly 1 per side-update equals
the player's total number of row appearances. -/
lemma todos_counter_total (g : TodosStats → Nat)
    (hupd : ∀ s r casa, g (updLado s r casa) = g s + 1)
    (hzero : g zerosTodos = 0) (df : List Match) (p : String) :
    g (calcular_estatisticas_todos_jogadores df p)
      = (df.map (fun r => participaMult p r)).sum := by
  unfold calcular_estatisticas_todos_jogadores
  rw [counter_foldl g (fun _ => 1) (fun s r casa => hupd s r casa) df (fun _ => zerosTodos) p]
  simp [hzero]

lemma updLado_jogos (s : TodosStats) (r : Match) (casa : Bool) :
    (updLado s r casa).jogos_total = s.jogos_total + 1 := by
  cases casa <;> rfl

/-- A counter that grows by at most 1 per side-update is bounded by the
game count, which grows by exactly 1. -/
lemma counter_le_jogos (g : TodosStats → Nat)
    (hupd : ∀ s r casa, g (updLado s r casa) ≤ g s + 1) :
    ∀ (df : List Match) (f : String → TodosStats) (p : String),
      g (df.foldl processRow f p) + (f p).jogos_total
        ≤ g (f p) + (df.foldl processRow f p).jogos_total := by
  intro df
  induction df with
  | nil => intro f p; simp
  | cons r t ih =>
    intro f p
    rw [List.foldl_cons]
    have hrow : g (processRow f r p) + (f p).jogos_total
        ≤ g (f p) + (processRow f r p).jogos_total := by
      rw [processRow_apply]
      by_cases h1 : p = r.visitante
      · by_cases h2 : p = r.mandante
        · rw [if_pos h1, if_pos h2, updLado_jogos, updLado_jogos]
          have a1 := hupd (updLado (f p) r true) r false
          have a2 := hupd (f p) r true
          omega
        · rw [if_pos h1, if_neg h2, updLado_jogos]
          have a1 := hupd (f p) r false
          omega
      · by_cases h2 : p = r.mandante
        · rw [if_neg h1, if_pos h2, updLado_jogos]
          have a1 := hupd (f p) r true
          omega
        · rw [if_neg h1, if_neg h2]
    have h2 := ih (processRow f r) p
    omega

lemma todos_hits_le_jogos (g : TodosStats → Nat)
    (hupd : ∀ s r casa, g (updLado s r casa) ≤ g s + 1)
    (hzero : g zerosTodos = 0) (df : List Match) (p : String) :
    g (calcular_estatisticas_todos_jogadores df p)
      ≤ (calcular_estatisticas_todos_jogadores df p).jogos_total := by
  have h := counter_le_jogos g hupd df (fun _ => zerosTodos) p
  unfold calcular_estatisticas_todos_jogadores
  simp only [show (fun _ : String => zerosTodos) p = zerosTodos from rfl, hzero,
    show zerosTodos.jogos_total = 0 from rfl] at h
  omega

/-- Per-league counters with side-independent indicator deltas count the
filtered rows of the player in the league. -/
lemma jogador_counter_filter (g : PlayerLigaStats → Nat) (pred : Match → Prop)
    [DecidablePred pred]
    (hupd : ∀ s j casa, g (acum s j casa) = g s + (if pred j then 1 else 0))
    (hzeros : ∀ n : Nat, g { zerosPL with jogos_total := n } = 0)
    (df : List Match) (jogador liga : String)
    (hne : ∀ r ∈ df, r.mandante ≠ r.visitante) :
    g (calcular_estatisticas_jogador df jogador liga)
      = (df.filter (fun r =>
          decide ((participa jogador r ∧ r.liga = liga) ∧ pred r))).length := by
  rw [calc_jogador_eq_corpo]
  unfold calcular_estatisticas_jogador_corpo
  rw [acum_counter_foldl g _ false (fun s j => hupd s j false),
    acum_counter_foldl g _ true (fun s j => hupd s j true), hzeros,
    sum_ind_eq_countP pred, sum_ind_eq_countP pred,
    List.countP_filter, List.countP_filter]
  have hcm : List.countP
      (fun a => decide (pred a) && decide (a.mandante = jogador ∧ a.liga = liga)) df
      = List.countP
        (fun a => decide ((a.mandante = jogador ∧ a.liga = liga) ∧ pred a)) df :=
    List.countP_congr (fun a _ => by
      rw [decide_and_comm (pred a) (a.mandante = jogador ∧ a.liga = liga)])
  have hcv : List.countP
      (fun a => decide (pred a) && decide (a.visitante = jogador ∧ a.liga = liga)) df
      = List.countP
        (fun a => decide ((a.visitante = jogador ∧ a.liga = liga) ∧ pred a)) df :=
    List.countP_congr (fun a _ => by
      rw [decide_and_comm (pred a) (a.visitante = jogador ∧ a.liga = liga)])
  have hdisj : ∀ r ∈ df,
      ¬ (((r.mandante = jogador ∧ r.liga = liga) ∧ pred r) ∧
         ((r.visitante = jogador ∧ r.liga = liga) ∧ pred r)) := by
    intro r hrdf hc
    exact hne r hrdf (hc.1.1.1.trans hc.2.1.1.symm)
  have hor : List.countP
      (fun r => decide ((r.mandante = jogador ∧ r.liga = liga) ∧ pred r)) df
      + List.countP
        (fun r => decide ((r.visitante = jogador ∧ r.liga = liga) ∧ pred r)) df
      = List.countP (fun r =>
          decide (((r.mandante = jogador ∧ r.liga = liga) ∧ pred r) ∨
            ((r.visitante = jogador ∧ r.liga = liga) ∧ pred r))) df :=
    countP_or_disjoint
      (fun r => (r.mandante = jogador ∧ r.liga = liga) ∧ pred r)
      (fun r => (r.visitante = jogador ∧ r.liga = liga) ∧ pred r) df hdisj
  have hfin : List.countP (fun r =>
      decide (((r.mandante = jogador ∧ r.liga = liga) ∧ pred r) ∨
        ((r.visitante = jogador ∧ r.liga = liga) ∧ pred r))) df
      = List.countP (fun r =>
          decide ((participa jogador r ∧ r.liga = liga) ∧ pred r)) df :=
    List.countP_congr (fun a _ => by
      simp only [decide_eq_true_eq]; unfold participa; tauto)
  rw [Nat.zero_add, hcm, hcv, hor, hfin, List.countP_eq_length_filter]

/-- The counter section leaves every streak counter unchanged. -/
lemma contadores_seq_vitorias (player : String) (s : RecentCounts) (r : Match) :
    (atualizaContadores player s r).sequencia_vitorias = s.sequencia_vitorias := rfl

lemma contadores_seq_derrotas (player : String) (s : RecentCounts) (r : Match) :
    (atualizaContadores player s r).sequencia_derrotas = s.sequencia_derrotas := rfl

lemma contadores_seq_empates (player : String) (s : RecentCounts) (r : Match) :
    (atualizaContadores player s r).sequencia_empates = s.sequencia_empates := rfl

lemma contadores_seq_btts (player : String) (s : RecentCounts) (r : Match) :
    (atualizaContadores player s r).sequencia_btts = s.sequencia_btts := rfl

lemma contadores_seq_over25 (player : String) (s : RecentCounts) (r : Match) :
    (atualizaContadores player s r).sequencia_over_25_ft = s.sequencia_over_25_ft := rfl

/-- The Over-2.5 streak section changes only its own streak counter. -/
lemma seqOver25_preserva (s : RecentCounts) (last : Option Bool) (cur : Bool) :
    (atualizaSequenciaOver25 s last cur).over_05_ht_hits = s.over_05_ht_hits ∧
    (atualizaSequenciaOver25 s last cur).over_15_ht_hits = s.over_15_ht_hits ∧
    (atualizaSequenciaOver25 s last cur).over_25_ht_hits = s.over_25_ht_hits ∧
    (atualizaSequenciaOver25 s last cur).btts_ht_hits = s.btts_ht_hits ∧
    (atualizaSequenciaOver25 s last cur).over_05_ft_hits = s.over_05_ft_hits ∧
    (atualizaSequenciaOver25 s last cur).over_15_ft_hits = s.over_15_ft_hits ∧
    (atualizaSequenciaOver25 s last cur).over_25_ft_hits = s.over_25_ft_hits ∧
    (atualizaSequenciaOver25 s last cur).over_35_ft_hits = s.over_35_ft_hits ∧
    (atualizaSequenciaOver25 s last cur).over_45_ft_hits = s.over_45_ft_hits ∧
    (atualizaSequenciaOver25 s last cur).over_55_ft_hits = s.over_55_ft_hits ∧
    (atualizaSequenciaOver25 s last cur).over_65_ft_hits = s.over_65_ft_hits ∧
    (atualizaSequenciaOver25 s last cur).btts_ft_hits = s.btts_ft_hits ∧
    (atualizaSequenciaOver25 s last cur).under_25_ft_hits = s.under_25_ft_hits ∧
    (atualizaSequenciaOver25 s last cur).gols_marcados_ft = s.gols_marcados_ft ∧
    (atualizaSequenciaOver25 s last cur).gols_sofridos_ft = s.gols_sofridos_ft ∧
    (atualizaSequenciaOver25 s last cur).gols_marcados_ht = s.gols_marcados_ht ∧
    (atualizaSequenciaOver25 s last cur).gols_sofridos_ht = s.gols_sofridos_ht ∧
    (atualizaSequenciaOver25 s last cur).sequencia_vitorias = s.sequencia_vitorias ∧
    (atualizaSequenciaOver25 s last cur).sequencia_derrotas = s.sequencia_derrotas ∧
    (atualizaSequenciaOver25 s last cur).sequencia_empates = s.sequencia_empates ∧
    (atualizaSequenciaOver25 s last cur).sequencia_btts = s.sequencia_btts := by
  unfold atualizaSequenciaOver25
  split_ifs <;>
    exact ⟨rfl, rfl, rfl, rfl, rfl, rfl, rfl, rfl, rfl, rfl, rfl, rfl, rfl, rfl, rfl,
      rfl, rfl, rfl, rfl, rfl, rfl⟩

/-- The BTTS streak section changes only its own streak counter. -/
lemma seqBtts_preserva (s : RecentCounts) (last : Option Bool) (cur : Bool) :
    (atualizaSequenciaBtts s last cur).over_05_ht_hits = s.over_05_ht_hits ∧
    (atualizaSequenciaBtts s last cur).over_15_ht_hits = s.over_15_ht_hits ∧
    (atualizaSequenciaBtts s last cur).over_25_ht_hits = s.over_25_ht_hits ∧
    (atualizaSequenciaBtts s last cur).btts_ht_hits = s.btts_ht_hits ∧
    (atualizaSequenciaBtts s last cur).over_05_ft_hits = s.over_05_ft_hits ∧
    (atualizaSequenciaBtts s last cur).over_15_ft_hits = s.over_15_ft_hits ∧
    (atualizaSequenciaBtts s last cur).over_25_ft_hits = s.over_25_ft_hits ∧
    (atualizaSequenciaBtts s last cur).over_35_ft_hits = s.over_35_ft_hits ∧
    (atualizaSequenciaBtts s last cur).over_45_ft_hits = s.over_45_ft_hits ∧
    (atualizaSequenciaBtts s last cur).over_55_ft_hits = s.over_55_ft_hits ∧
    (atualizaSequenciaBtts s last cur).over_65_ft_hits = s.over_65_ft_hits ∧
    (atualizaSequenciaBtts s last cur).btts_ft_hits = s.btts_ft_hits ∧
    (atualizaSequenciaBtts s last cur).under_25_ft_hits = s.under_25_ft_hits ∧
    (atualizaSequenciaBtts s last cur).gols_marcados_ft = s.gols_marcados_ft ∧
    (atualizaSequenciaBtts s last cur).gols_sofridos_ft = s.gols_sofridos_ft ∧
    (atualizaSequenciaBtts s last cur).gols_marcados_ht = s.gols_marcados_ht ∧
    (atualizaSequenciaBtts s last cur).gols_sofridos_ht = s.gols_sofridos_ht ∧
    (atualizaSequenciaBtts s last cur).sequencia_vitorias = s.sequencia_vitorias ∧
    (atualizaSequenciaBtts s last cur).sequencia_derrotas = s.sequencia_derrotas ∧
    (atualizaSequenciaBtts s last cur).sequencia_empates = s.sequencia_empates ∧
    (atualizaSequenciaBtts s last cur).sequencia_over_25_ft = s.sequencia_over_25_ft := by
  unfold atualizaSequenciaBtts
  split_ifs <;>
    exact ⟨rfl, rfl, rfl, rfl, rfl, rfl, rfl, rfl, rfl, rfl, rfl, rfl, rfl, rfl, rfl,
      rfl, rfl, rfl, rfl, rfl, rfl⟩

/-- The win/loss/draw streak section changes only its three streak
counters. -/
lemma seqResultado_preserva (s : RecentCounts) (last : Option Outcome) (cur : Outcome) :
    (atualizaSequenciasResultado s last cur).over_05_ht_hits = s.over_05_ht_hits ∧
    (atualizaSequenciasResultado s last cur).over_15_ht_hits = s.over_15_ht_hits ∧
    (atualizaSequenciasResultado s last cur).over_25_ht_hits = s.over_25_ht_hits ∧
    (atualizaSequenciasResultado s last cur).btts_ht_hits = s.btts_ht_hits ∧
    (atualizaSequenciasResultado s last cur).over_05_ft_hits = s.over_05_ft_hits ∧
    (atualizaSequenciasResultado s last cur).over_15_ft_hits = s.over_15_ft_hits ∧
    (atualizaSequenciasResultado s last cur).over_25_ft_hits = s.over_25_ft_hits ∧
    (atualizaSequenciasResultado s last cur).over_35_ft_hits = s.over_35_ft_hits ∧
    (atualizaSequenciasResultado s last cur).over_45_ft_hits = s.over_45_ft_hits ∧
    (atualizaSequenciasResultado s last cur).over_55_ft_hits = s.over_55_ft_hits ∧
    (atualizaSequenciasResultado s last cur).over_65_ft_hits = s.over_65_ft_hits ∧
    (atualizaSequenciasResultado s last cur).btts_ft_hits = s.btts_ft_hits ∧
    (atualizaSequenciasResultado s last cur).under_25_ft_hits = s.under_25_ft_hits ∧
    (atualizaSequenciasResultado s last cur).gols_marcados_ft = s.gols_marcados_ft ∧
    (atualizaSequenciasResultado s last cur).gols_sofridos_ft = s.gols_sofridos_ft ∧
    (atualizaSequenciasResultado s last cur).gols_marcados_ht = s.gols_marcados_ht ∧
    (atualizaSequenciasResultado s last cur).gols_sofridos_ht = s.gols_sofridos_ht ∧
    (atualizaSequenciasResultado s last cur).sequencia_btts = s.sequencia_btts ∧
    (atualizaSequenciasResultado s last cur).sequencia_over_25_ft = s.sequencia_over_25_ft := by
  unfold atualizaSequenciasResultado
  cases cur <;> split_ifs <;>
    exact ⟨rfl, rfl, rfl, rfl, rfl, rfl, rfl, rfl, rfl, rfl, rfl, rfl, rfl, rfl, rfl,
      rfl, rfl, rfl, rfl⟩

/-- Streak counter characterization of the win/loss/draw streak section. -/
lemma seqResultado_vitorias (s : RecentCounts) (last : Option Outcome) (cur : Outcome) :
    (atualizaSequenciasResultado s last cur).sequencia_vitorias
      = if last = none ∨ last = some cur then
          (if cur = .win then s.sequencia_vitorias + 1 else s.sequencia_vitorias)
        else (if cur = .win then 1 else 0) := by
  unfold atualizaSequenciasResultado
  cases cur <;> split_ifs <;> simp_all

lemma seqResultado_derrotas (s : RecentCounts) (last : Option Outcome) (cur : Outcome) :
    (atualizaSequenciasResultado s last cur).sequencia_derrotas
      = if last = none ∨ last = some cur then
          (if cur = .loss then s.sequencia_derrotas + 1 else s.sequencia_derrotas)
        else (if cur = .loss then 1 else 0) := by
  unfold atualizaSequenciasResultado
  cases cur <;> split_ifs <;> simp_all

lemma seqResultado_empates (s : RecentCounts) (last : Option Outcome) (cur : Outcome) :
    (atualizaSequenciasResultado s last cur).sequencia_empates
      = if last = none ∨ last = some cur then
          (if cur = .draw then s.sequencia_empates + 1 else s.sequencia_empates)
        else (if cur = .draw then 1 else 0) := by
  unfold atualizaSequenciasResultado
  cases cur <;> split_ifs <;> simp_all

lemma seqBtts_char (s : RecentCounts) (last : Option Bool) (cur : Bool) :
    (atualizaSequenciaBtts s last cur).sequencia_btts
      = if last = none ∨ last = some cur then
          (if cur then s.sequencia_btts + 1 else s.sequencia_btts)
        else (if cur then 1 else 0) := by
  unfold atualizaSequenciaBtts
  cases cur <;> split_ifs <;> rfl

lemma seqOver25_char (s : RecentCounts) (last : Option Bool) (cur : Bool) :
    (atualizaSequenciaOver25 s last cur).sequencia_over_25_ft
      = if last = none ∨ last = some cur then
          (if cur then s.sequencia_over_25_ft + 1 else s.sequencia_over_25_ft)
        else (if cur then 1 else 0) := by
  unfold atualizaSequenciaOver25
  cases cur <;> split_ifs <;> rfl

/-- The streak sections leave the whole counter section of the loop state
exactly as `atualizaContadores` produced it. -/
lemma recentStep_contadores (player : String) (st : RecentLoopState) (r : Match) :
    (recentStep player st r).stats.over_05_ht_hits
      = (atualizaContadores player st.stats r).over_05_ht_hits ∧
    (recentStep player st r).stats.over_15_ht_hits
      = (atualizaContadores player st.stats r).over_15_ht_hits ∧
    (recentStep player st r).stats.over_25_ht_hits
      = (atualizaContadores player st.stats r).over_25_ht_hits ∧
    (recentStep player st r).stats.btts_ht_hits
      = (atualizaContadores player st.stats r).btts_ht_hits ∧
    (recentStep player st r).stats.over_05_ft_hits
      = (atualizaContadores player st.stats r).over_05_ft_hits ∧
    (recentStep player st r).stats.over_15_ft_hits
      = (atualizaContadores player st.stats r).over_15_ft_hits ∧
    (recentStep player st r).stats.over_25_ft_hits
      = (atualizaContadores player st.stats r).over_25_ft_hits ∧
    (recentStep player st r).stats.over_35_ft_hits
      = (atualizaContadores player st.stats r).over_35_ft_hits ∧
    (recentStep player st r).stats.over_45_ft_hits
      = (atualizaContadores player st.stats r).over_45_ft_hits ∧
    (recentStep player st r).stats.over_55_ft_hits
      = (atualizaContadores player st.stats r).over_55_ft_hits ∧
    (recentStep player st r).stats.over_65_ft_hits
      = (atualizaContadores player st.stats r).over_65_ft_hits ∧
    (recentStep player st r).stats.btts_ft_hits
      = (atualizaContadores player st.stats r).btts_ft_hits ∧
    (recentStep player st r).stats.under_25_ft_hits
      = (atualizaContadores player st.stats r).under_25_ft_hits := by
  refine ⟨?_, ?_, ?_, ?_, ?_, ?_, ?_, ?_, ?_, ?_, ?_, ?_, ?_⟩ <;>
    simp only [recentStep, seqOver25_preserva, seqBtts_preserva, seqResultado_preserva]

/-- Per-game deltas of the over/under hit counters in the counter section. -/
lemma contadores_delta (player : String) (s : RecentCounts) (r : Match) :
    (atualizaContadores player s r).over_05_ht_hits
      = s.over_05_ht_hits + (if totalHT r > 0 then 1 else 0) ∧
    (atualizaContadores player s r).over_15_ht_hits
      = s.over_15_ht_hits + (if totalHT r > 1 then 1 else 0) ∧
    (atualizaContadores player s r).over_25_ht_hits
      = s.over_25_ht_hits + (if totalHT r > 2 then 1 else 0) ∧
    (atualizaContadores player s r).over_05_ft_hits
      = s.over_05_ft_hits + (if totalFT r > 0 then 1 else 0) ∧
    (atualizaContadores player s r).over_15_ft_hits
      = s.over_15_ft_hits + (if totalFT r > 1 then 1 else 0) ∧
    (atualizaContadores player s r).over_25_ft_hits
      = s.over_25_ft_hits + (if totalFT r > 2 then 1 else 0) ∧
    (atualizaContadores player s r).over_35_ft_hits
      = s.over_35_ft_hits + (if totalFT r > 3 then 1 else 0) ∧
    (atualizaContadores player s r).over_45_ft_hits
      = s.over_45_ft_hits + (if totalFT r > 4 then 1 else 0) ∧
    (atualizaContadores player s r).over_55_ft_hits
      = s.over_55_ft_hits + (if totalFT r > 5 then 1 else 0) ∧
    (atualizaContadores player s r).over_65_ft_hits
      = s.over_65_ft_hits + (if totalFT r > 6 then 1 else 0) ∧
    (atualizaContadores player s r).under_25_ft_hits
      = s.under_25_ft_hits + (if totalFT r > 2 then 0 else 1) ∧
    (atualizaContadores player s r).btts_ft_hits
      = s.btts_ft_hits + (if bttsDe player r then 1 else 0) :=
  ⟨rfl, rfl, rfl, rfl, rfl, rfl, rfl, rfl, rfl, rfl, rfl, rfl⟩

/-- BTTS-HT hits grow by at most one per game. -/
lemma contadores_btts_ht_le (player : String) (s : RecentCounts) (r : Match) :
    (atualizaContadores player s r).btts_ht_hits ≤ s.btts_ht_hits + 1 := by
  unfold atualizaContadores
  dsimp only
  split_ifs <;> omega

/-- Win/loss/draw streak counter after one loop iteration. -/
lemma recentStep_seq_vitorias (player : String) (st : RecentLoopState) (r : Match) :
    (recentStep player st r).stats.sequencia_vitorias
      = if st.last_result = none ∨ st.last_result = some (resultadoDe player r) then
          (if resultadoDe player r = .win then st.stats.sequencia_vitorias + 1
           else st.stats.sequencia_vitorias)
        else (if resultadoDe player r = .win then 1 else 0) := by
  simp only [recentStep, seqOver25_preserva, seqBtts_preserva, seqResultado_vitorias,
    contadores_seq_vitorias]

/-- Loss streak counter after one loop iteration. -/
lemma recentStep_seq_derrotas (player : String) (st : RecentLoopState) (r : Match) :
    (recentStep player st r).stats.sequencia_derrotas
      = if st.last_result = none ∨ st.last_result = some (resultadoDe player r) then
          (if resultadoDe player r = .loss then st.stats.sequencia_derrotas + 1
           else st.stats.sequencia_derrotas)
        else (if resultadoDe player r = .loss then 1 else 0) := by
  simp only [recentStep, seqOver25_preserva, seqBtts_preserva, seqResultado_derrotas,
    contadores_seq_derrotas]

/-- Draw streak counter after one loop iteration. -/
lemma recentStep_seq_empates (player : String) (st : RecentLoopState) (r : Match) :
    (recentStep player st r).stats.sequencia_empates
      = if st.last_result = none ∨ st.last_result = some (resultadoDe player r) then
          (if resultadoDe player r = .draw then st.stats.sequencia_empates + 1
           else st.stats.sequencia_empates)
        else (if resultadoDe player r = .draw then 1 else 0) := by
  simp only [recentStep, seqOver25_preserva, seqBtts_preserva, seqResultado_empates,
    contadores_seq_empates]

/-- BTTS streak counter after one loop iteration. -/
lemma recentStep_seq_btts (player : String) (st : RecentLoopState) (r : Match) :
    (recentStep player st r).stats.sequencia_btts
      = if st.last_btts = none ∨ st.last_btts = some (bttsDe player r) then
          (if bttsDe player r then st.stats.sequencia_btts + 1
           else st.stats.sequencia_btts)
        else (if bttsDe player r then 1 else 0) := by
  simp only [recentStep, seqOver25_preserva, seqBtts_char, seqResultado_preserva,
    contadores_seq_btts]

/-- Over-2.5-FT streak counter after one loop iteration. -/
lemma recentStep_seq_over25 (player : String) (st : RecentLoopState) (r : Match) :
    (recentStep player st r).stats.sequencia_over_25_ft
      = if st.last_over_25_ft = none ∨ st.last_over_25_ft = some (over25De r) then
          (if over25De r then st.stats.sequencia_over_25_ft + 1
           else st.stats.sequencia_over_25_ft)
        else (if over25De r then 1 else 0) := by
  simp only [recentStep, seqOver25_char, seqBtts_preserva, seqResultado_preserva,
    contadores_seq_over25]

/-- The `last_*` variables after one loop iteration. -/
lemma recentStep_last (player : String) (st : RecentLoopState) (r : Match) :
    (recentStep player st r).last_result = some (resultadoDe player r) ∧
    (recentStep player st r).last_btts = some (bttsDe player r) ∧
    (recentStep player st r).last_over_25_ft = some (over25De r) :=
  ⟨rfl, rfl, rfl⟩

/-- Every hit counter grows by at most one per loop iteration. -/
lemma recentStep_le (player : String) (st : RecentLoopState) (r : Match) :
    (recentStep player st r).stats.over_05_ht_hits ≤ st.stats.over_05_ht_hits + 1 ∧
    (recentStep player st r).stats.over_15_ht_hits ≤ st.stats.over_15_ht_hits + 1 ∧
    (recentStep player st r).stats.over_25_ht_hits ≤ st.stats.over_25_ht_hits + 1 ∧
    (recentStep player st r).stats.btts_ht_hits ≤ st.stats.btts_ht_hits + 1 ∧
    (recentStep player st r).stats.over_05_ft_hits ≤ st.stats.over_05_ft_hits + 1 ∧
    (recentStep player st r).stats.over_15_ft_hits ≤ st.stats.over_15_ft_hits + 1 ∧
    (recentStep player st r).stats.over_25_ft_hits ≤ st.stats.over_25_ft_hits + 1 ∧
    (recentStep player st r).stats.over_35_ft_hits ≤ st.stats.over_35_ft_hits + 1 ∧
    (recentStep player st r).stats.over_45_ft_hits ≤ st.stats.over_45_ft_hits + 1 ∧
    (recentStep player st r).stats.over_55_ft_hits ≤ st.stats.over_55_ft_hits + 1 ∧
    (recentStep player st r).stats.over_65_ft_hits ≤ st.stats.over_65_ft_hits + 1 ∧
    (recentStep player st r).stats.btts_ft_hits ≤ st.stats.btts_ft_hits + 1 ∧
    (recentStep player st r).stats.under_25_ft_hits ≤ st.stats.under_25_ft_hits + 1 := by
  obtain ⟨c1, c2, c3, c4, c5, c6, c7, c8, c9, c10, c11, c12, c13⟩ :=
    recentStep_contadores player st r
  obtain ⟨d1, d2, d3, d4, d5, d6, d7, d8, d9, d10, d11, d12⟩ :=
    contadores_delta player st.stats r
  have hb := contadores_btts_ht_le player st.stats r
  refine ⟨?_, ?_, ?_, ?_, ?_, ?_, ?_, ?_, ?_, ?_, ?_, ?_, ?_⟩ <;>
    simp only [c1, c2, c3, c4, c5, c6, c7, c8, c9, c10, c11, c12, c13,
      d1, d2, d3, d4, d5, d6, d7, d8, d9, d10, d11, d12] <;>
    first
      | exact hb
      | (split_ifs <;> omega)

/-- A recent-window counter that grows by at most 1 per game is bounded by
the number of games processed. -/
lemma recent_counter_le (player : String) (g : RecentCounts → Nat)
    (hstep : ∀ st r, g (recentStep player st r).stats ≤ g st.stats + 1) :
    ∀ (l : List Match) (st : RecentLoopState),
      g (l.foldl (recentStep player) st).stats ≤ g st.stats + l.length := by
  intro l
  induction l with
  | nil => intro st; simp
  | cons r t ih =>
    intro st
    rw [List.foldl_cons]
    have h1 := hstep st r
    have h2 := ih (recentStep player st r)
    simp only [List.length_cons]
    omega

lemma aplicar_medalhas_aux_proj :
    ∀ (i : Nat) (rows : List StatsRow),
      (aplicar_medalhas_aux i rows).map (fun r => (r.jogos_total, r.valores))
        = rows.map (fun r => (r.jogos_total, r.valores)) := by
  intro i rows
  induction rows generalizing i with
  | nil => rfl
  | cons r t ih =>
    cases hm : medalha i <;> simp [aplicar_medalhas_aux, hm, ih]

lemma aplicar_medalhas_length (rows : List StatsRow) :
    (aplicar_medalhas rows).length = rows.length := by
  have h := congrArg List.length (aplicar_medalhas_aux_proj 0 rows)
  simpa [aplicar_medalhas] using h

lemma aplicar_medalhas_mem {r : StatsRow} {rows : List StatsRow}
    (h : r ∈ aplicar_medalhas rows) :
    ∃ r' ∈ rows, r'.jogos_total = r.jogos_total ∧ r'.valores = r.valores := by
  have hmem : (r.jogos_total, r.valores)
      ∈ rows.map (fun r => (r.jogos_total, r.valores)) := by
    rw [← aplicar_medalhas_aux_proj 0 rows]
    exact List.mem_map_of_mem _ h
  obtain ⟨r', hr', hproj⟩ := List.mem_map.mp hmem
  exact ⟨r', hr', congrArg Prod.fst hproj, congrArg Prod.snd hproj⟩

lemma aplicar_medalhas_pairwise {asc : Bool} {m : String} {rows : List StatsRow}
    (h : List.Pairwise (rankLE asc m) rows) :
    List.Pairwise (fun a b : StatsRow => metricaLE asc (a.valores m) (b.valores m))
      (aplicar_medalhas rows) := by
  have h1 : List.Pairwise
      (fun x y : Nat × (String → ℚ) => metricaLE asc (x.2 m) (y.2 m))
      ((aplicar_medalhas rows).map (fun r => (r.jogos_total, r.valores))) := by
    rw [aplicar_medalhas, aplicar_medalhas_aux_proj 0 rows, List.pairwise_map]
    exact h.imp (fun hab => hab)
  rw [List.pairwise_map] at h1
  exact h1.imp (fun hab => hab)

lemma pctDiv_nonneg (h n : Nat) : 0 ≤ pctDiv h n := by
  unfold pctDiv
  split_ifs
  · exact le_refl 0
  · positivity

lemma pctDiv_le_100 {h n : Nat} (hle : h ≤ n) : pctDiv h n ≤ 100 := by
  unfold pctDiv
  split_ifs with h0
  · norm_num
  · have hn : (0 : ℚ) < n := by
      exact_mod_cast Nat.pos_of_ne_zero h0
    have hq : (h : ℚ) ≤ (n : ℚ) := by exact_mod_cast hle
    rw [div_mul_eq_mul_div, div_le_iff₀ hn]
    linarith

lemma pctDiv_zero_total (h : Nat) : pctDiv h 0 = 0 := by simp [pctDiv]

lemma mediaDiv_zero_total (g : Nat) : mediaDiv g 0 = 0 := by simp [mediaDiv]

/-! ## Theorems about the suggesters, maps and score splitting -/

/-- C3: `sugerir_over_ft` returns each full-time line exactly on its
half-open threshold band (`≥` comparisons, first match wins), and
`sugerir_over_ht` likewise for the half-time ladder. -/
theorem sugerir_over_thresholds (a : ℚ) :
    (sugerir_over_ft a = "Over 5.5 FT" ↔ a ≥ 6.70) ∧
    (sugerir_over_ft a = "Over 4.5 FT" ↔ 5.70 ≤ a ∧ a < 6.70) ∧
    (sugerir_over_ft a = "Over 3.5 FT" ↔ 4.50 ≤ a ∧ a < 5.70) ∧
    (sugerir_over_ft a = "Over 2.5 FT" ↔ 3.45 ≤ a ∧ a < 4.50) ∧
    (sugerir_over_ft a = "Over 1.5 FT" ↔ 2.40 ≤ a ∧ a < 3.45) ∧
    (sugerir_over_ft a = "Over 0.5 FT" ↔ 2.00 ≤ a ∧ a < 2.40) ∧
    (sugerir_over_ft a = "Sem Entrada" ↔ a < 2.00) ∧
    (sugerir_over_ht a = "Over 2.5 HT" ↔ a ≥ 2.75) ∧
    (sugerir_over_ht a = "Over 1.5 HT" ↔ 2.20 ≤ a ∧ a < 2.75) ∧
    (sugerir_over_ht a = "Over 0.5 HT" ↔ 1.70 ≤ a ∧ a < 2.20) ∧
    (sugerir_over_ht a = "Sem Entrada" ↔ a < 1.70) := by
  refine ⟨?_, ?_, ?_, ?_, ?_, ?_, ?_, ?_, ?_, ?_, ?_⟩ <;>
    (simp only [sugerir_over_ft, sugerir_over_ht]; split_ifs <;> simp_all <;> intros <;>
      linarith)

set_option maxHeartbeats 1000000 in
/-- C4: both suggestion ladders are monotone: a larger goal average never
yields a lower suggested line, measured by `nivelFT`/`nivelHT`. -/
theorem sugerir_monotone (a b : ℚ) (hab : a ≤ b) :
    nivelFT (sugerir_over_ft a) ≤ nivelFT (sugerir_over_ft b) ∧
    nivelHT (sugerir_over_ht a) ≤ nivelHT (sugerir_over_ht b) := by
  constructor
  · unfold sugerir_over_ft
    split_ifs <;> first | decide | linarith
  · unfold sugerir_over_ht
    split_ifs <;> first | decide | linarith

/-- Witness for `sugerir_monotone` at the concrete pair `(2.00, 6.70)`. -/
theorem sugerir_monotone_witness :
    nivelFT (sugerir_over_ft 2.00) ≤ nivelFT (sugerir_over_ft 6.70) ∧
    nivelHT (sugerir_over_ht 2.00) ≤ nivelHT (sugerir_over_ht 6.70) :=
  sugerir_monotone 2.00 6.70 (by norm_num)

/-- C5: score cells split on the literal `x` after space removal into two
numeric components with non-numeric or missing parts coerced to 0, the
`Total` column is the sum of the two components, and in particular
`"2 x 1"` yields `(2, 1)` with total 3 while the malformed `"x"` yields
`(0, 0)` with total 0. -/
theorem score_split_spec :
    splitScoreCell "2 x 1" = (2, 1) ∧ totalScoreCell "2 x 1" = 3 ∧
    splitScoreCell "x" = (0, 0) ∧ totalScoreCell "x" = 0 ∧
    (∀ s : String, totalScoreCell s = (splitScoreCell s).1 + (splitScoreCell s).2) ∧
    (∀ cs : List Char, parseDigits cs = none → coerceOr0 cs = 0) := by
  refine ⟨by decide, by decide, by decide, by decide, fun s => rfl, fun cs h => ?_⟩
  simp [coerceOr0, h]

/-- Witness for `score_split_spec`: the non-numeric part `['a']` is coerced
to 0. -/
theorem score_split_spec_witness : coerceOr0 ['a'] = 0 :=
  score_split_spec.2.2.2.2.2 ['a'] (by decide)

/-- C6: the results-pipeline and live-pipeline league maps send the four
raw competition names of the same competition to identical canonical
names (`GT 12 Min`, `H2H 8 Min`, `Battle 8 Min`, `Volta 6 Min`). -/
theorem ligas_canonical_agree :
    mapa_ligas_resultados "GT League" = "GT 12 Min" ∧
    mapa_ligas_ao_vivo "E-soccer - GT Leagues - 12 mins de jogo" = "GT 12 Min" ∧
    mapa_ligas_resultados "H2H 8m" = "H2H 8 Min" ∧
    mapa_ligas_ao_vivo "E-soccer - H2H GG League - 8 minutos de jogo" = "H2H 8 Min" ∧
    mapa_ligas_resultados "Battle 8m" = "Battle 8 Min" ∧
    mapa_ligas_ao_vivo "E-soccer - Battle - 8 minutos de jogo" = "Battle 8 Min" ∧
    mapa_ligas_resultados "Battle 6m" = "Volta 6 Min" ∧
    mapa_ligas_ao_vivo "Esoccer Battle Volta - 6 Minutos de Jogo" = "Volta 6 Min" := by
  refine ⟨rfl, rfl, rfl, rfl, rfl, rfl, rfl, rfl⟩

/-- C9 counterexample: at the average 2.745 the display-coloring function
yields the white glyph although 2.745 is not below the yellow band's lower
bound 2.62, refuting "white iff a < 2.62". -/
theorem format_ht_icon_cex :
    format_gols_ht_com_icone_para_display 2.745 = "⚪" ∧ ¬ ((2.745 : ℚ) < 2.62) := by
  constructor
  · unfold format_gols_ht_com_icone_para_display
    split_ifs with h1 h2 <;> first | rfl | (exfalso; rcases h2 with ⟨_, h3⟩; linarith) |
      (exfalso; revert h1; norm_num)
  · norm_num

/-- C9 (amended): the display-coloring function prefixes green iff
`a ≥ 2.75`, yellow iff `2.62 ≤ a ≤ 2.74`, and white iff `a < 2.62` or
`2.74 < a < 2.75` (the gap between the closed yellow band and the green
cutoff also renders white). -/
theorem format_ht_icon_spec (a : ℚ) :
    (format_gols_ht_com_icone_para_display a = "🟢" ↔ a ≥ 2.75) ∧
    (format_gols_ht_com_icone_para_display a = "🟡" ↔ 2.62 ≤ a ∧ a ≤ 2.74) ∧
    (format_gols_ht_com_icone_para_display a = "⚪" ↔
      a < 2.62 ∨ (2.74 < a ∧ a < 2.75)) := by
  unfold format_gols_ht_com_icone_para_display
  split_ifs with h1 h2
  · refine ⟨⟨fun _ => h1, fun _ => rfl⟩,
      ⟨fun hc => absurd hc (by decide), fun hb => absurd hb.2 (by push_neg; linarith)⟩,
      ⟨fun hc => absurd hc (by decide), fun hw => ?_⟩⟩
    rcases hw with h | ⟨_, h⟩ <;> linarith
  · refine ⟨⟨fun hc => absurd hc (by decide), fun hg => absurd hg h1⟩,
      ⟨fun _ => h2, fun _ => rfl⟩,
      ⟨fun hc => absurd hc (by decide), fun hw => ?_⟩⟩
    rcases hw with h | ⟨h, _⟩ <;> [linarith [h2.1]; linarith [h2.2]]
  · refine ⟨⟨fun hc => absurd hc (by decide), fun hg => absurd hg h1⟩,
      ⟨fun hc => absurd hc (by decide), fun hb => absurd hb h2⟩,
      ⟨fun _ => ?_, fun _ => rfl⟩⟩
    rcases lt_or_le a 2.62 with h | h
    · exact Or.inl h
    · push_neg at h2
      exact Or.inr ⟨h2 h, not_le.mp h1⟩

/-- C1: on tables whose rows never repeat a player, every Over-N.5 hit
counter of `calcular_estatisticas_jogador` (per league) and of
`calcular_estatisticas_todos_jogadores` (all leagues) counts exactly the
player's games whose period total strictly exceeds N, for all ten
thresholds; on the example table with FT totals `[3, 1, 4]` player `A` gets
`over_25_ft_hits = 2` and an Over-2.5-FT rate of `200/3`. -/
theorem over_hits_threshold_counts :
    (∀ (df : List Match) (j l : String), (∀ r ∈ df, r.mandante ≠ r.visitante) →
      ((calcular_estatisticas_jogador df j l).over_05_ht_hits
        = (df.filter (fun r => decide ((participa j r ∧ r.liga = l) ∧ totalHT r > 0))).length ∧
       (calcular_estatisticas_jogador df j l).over_15_ht_hits
        = (df.filter (fun r => decide ((participa j r ∧ r.liga = l) ∧ totalHT r > 1))).length ∧
       (calcular_estatisticas_jogador df j l).over_25_ht_hits
        = (df.filter (fun r => decide ((participa j r ∧ r.liga = l) ∧ totalHT r > 2))).length ∧
       (calcular_estatisticas_jogador df j l).over_05_ft_hits
        = (df.filter (fun r => decide ((participa j r ∧ r.liga = l) ∧ totalFT r > 0))).length ∧
       (calcular_estatisticas_jogador df j l).over_15_ft_hits
        = (df.filter (fun r => decide ((participa j r ∧ r.liga = l) ∧ totalFT r > 1))).length ∧
       (calcular_estatisticas_jogador df j l).over_25_ft_hits
        = (df.filter (fun r => decide ((participa j r ∧ r.liga = l) ∧ totalFT r > 2))).length ∧
       (calcular_estatisticas_jogador df j l).over_35_ft_hits
        = (df.filter (fun r => decide ((participa j r ∧ r.liga = l) ∧ totalFT r > 3))).length ∧
       (calcular_estatisticas_jogador df j l).over_45_ft_hits
        = (df.filter (fun r => decide ((participa j r ∧ r.liga = l) ∧ totalFT r > 4))).length ∧
       (calcular_estatisticas_jogador df j l).over_55_ft_hits
        = (df.filter (fun r => decide ((participa j r ∧ r.liga = l) ∧ totalFT r > 5))).length ∧
       (calcular_estatisticas_jogador df j l).over_65_ft_hits
        = (df.filter (fun r => decide ((participa j r ∧ r.liga = l) ∧ totalFT r > 6))).length)) ∧
    (∀ (df : List Match) (p : String), (∀ r ∈ df, r.mandante ≠ r.visitante) →
      ((calcular_estatisticas_todos_jogadores df p).over_05_ht_hits
        = (df.filter (fun r => decide (participa p r ∧ totalHT r > 0))).length ∧
       (calcular_estatisticas_todos_jogadores df p).over_15_ht_hits
        = (df.filter (fun r => decide (participa p r ∧ totalHT r > 1))).length ∧
       (calcular_estatisticas_todos_jogadores df p).over_25_ht_hits
        = (df.filter (fun r => decide (participa p r ∧ totalHT r > 2))).length ∧
       (calcular_estatisticas_todos_jogadores df p).over_05_ft_hits
        = (df.filter (fun r => decide (participa p r ∧ totalFT r > 0))).length ∧
       (calcular_estatisticas_todos_jogadores df p).over_15_ft_hits
        = (df.filter (fun r => decide (participa p r ∧ totalFT r > 1))).length ∧
       (calcular_estatisticas_todos_jogadores df p).over_25_ft_hits
        = (df.filter (fun r => decide (participa p r ∧ totalFT r > 2))).length ∧
       (calcular_estatisticas_todos_jogadores df p).over_35_ft_hits
        = (df.filter (fun r => decide (participa p r ∧ totalFT r > 3))).length ∧
       (calcular_estatisticas_todos_jogadores df p).over_45_ft_hits
        = (df.filter (fun r => decide (participa p r ∧ totalFT r > 4))).length ∧
       (calcular_estatisticas_todos_jogadores df p).over_55_ft_hits
        = (df.filter (fun r => decide (participa p r ∧ totalFT r > 5))).length ∧
       (calcular_estatisticas_todos_jogadores df p).over_65_ft_hits
        = (df.filter (fun r => decide (participa p r ∧ totalFT r > 6))).length)) ∧
    ((calcular_estatisticas_jogador exemploC1 "A" "GT 12 Min").over_25_ft_hits = 2 ∧
     (calcular_estatisticas_todos_jogadores exemploC1 "A").over_25_ft_hits = 2 ∧
     over25FTPct (calcular_estatisticas_todos_jogadores exemploC1 "A") = 200 / 3) := by
  refine ⟨fun df j l hne => ⟨?_, ?_, ?_, ?_, ?_, ?_, ?_, ?_, ?_, ?_⟩,
    fun df p hne => ⟨?_, ?_, ?_, ?_, ?_, ?_, ?_, ?_, ?_, ?_⟩, ?_, ?_, ?_⟩
  · exact jogador_counter_filter _ (fun r => totalHT r > 0)
      (fun s jo casa => rfl) (fun n => rfl) df j l hne
  · exact jogador_counter_filter _ (fun r => totalHT r > 1)
      (fun s jo casa => rfl) (fun n => rfl) df j l hne
  · exact jogador_counter_filter _ (fun r => totalHT r > 2)
      (fun s jo casa => rfl) (fun n => rfl) df j l hne
  · exact jogador_counter_filter _ (fun r => totalFT r > 0)
      (fun s jo casa => rfl) (fun n => rfl) df j l hne
  · exact jogador_counter_filter _ (fun r => totalFT r > 1)
      (fun s jo casa => rfl) (fun n => rfl) df j l hne
  · exact jogador_counter_filter _ (fun r => totalFT r > 2)
      (fun s jo casa => rfl) (fun n => rfl) df j l hne
  · exact jogador_counter_filter _ (fun r => totalFT r > 3)
      (fun s jo casa => rfl) (fun n => rfl) df j l hne
  · exact jogador_counter_filter _ (fun r => totalFT r > 4)
      (fun s jo casa => rfl) (fun n => rfl) df j l hne
  · exact jogador_counter_filter _ (fun r => totalFT r > 5)
      (fun s jo casa => rfl) (fun n => rfl) df j l hne
  · exact jogador_counter_filter _ (fun r => totalFT r > 6)
      (fun s jo casa => rfl) (fun n => rfl) df j l hne
  · exact todos_counter_filter _ (fun r => totalHT r > 0)
      (fun s r casa => rfl) rfl df p hne
  · exact todos_counter_filter _ (fun r => totalHT r > 1)
      (fun s r casa => rfl) rfl df p hne
  · exact todos_counter_filter _ (fun r => totalHT r > 2)
      (fun s r casa => rfl) rfl df p hne
  · exact todos_counter_filter _ (fun r => totalFT r > 0)
      (fun s r casa => rfl) rfl df p hne
  · exact todos_counter_filter _ (fun r => totalFT r > 1)
      (fun s r casa => rfl) rfl df p hne
  · exact todos_counter_filter _ (fun r => totalFT r > 2)
      (fun s r casa => rfl) rfl df p hne
  · exact todos_counter_filter _ (fun r => totalFT r > 3)
      (fun s r casa => rfl) rfl df p hne
  · exact todos_counter_filter _ (fun r => totalFT r > 4)
      (fun s r casa => rfl) rfl df p hne
  · exact todos_counter_filter _ (fun r => totalFT r > 5)
      (fun s r casa => rfl) rfl df p hne
  · exact todos_counter_filter _ (fun r => totalFT r > 6)
      (fun s r casa => rfl) rfl df p hne
  · rfl
  · rfl
  · have h1 : (calcular_estatisticas_todos_jogadores exemploC1 "A").over_25_ft_hits = 2 := rfl
    have h2 : (calcular_estatisticas_todos_jogadores exemploC1 "A").jogos_total = 3 := rfl
    unfold over25FTPct
    rw [h1, h2]
    unfold pctDiv
    norm_num

/-- Witness for `over_hits_threshold_counts` on the example table. -/
theorem over_hits_threshold_counts_witness :
    (calcular_estatisticas_jogador exemploC1 "A" "GT 12 Min").over_25_ft_hits
      = (exemploC1.filter (fun r =>
          decide ((participa "A" r ∧ r.liga = "GT 12 Min") ∧ totalFT r > 2))).length :=
  (over_hits_threshold_counts.1 exemploC1 "A" "GT 12 Min"
    (by decide)).2.2.2.2.2.1

/-- C10: every player record of `calcular_estatisticas_todos_jogadores`
satisfies `vitorias + derrotas + empates = jogos_total` and
`over_25_ft_hits + under_25_ft_hits = jogos_total`, and every player that
appears in some row has `jogos_total ≥ 1`. -/
theorem todos_invariantes (df : List Match) (p : String) :
    (calcular_estatisticas_todos_jogadores df p).vitorias
        + (calcular_estatisticas_todos_jogadores df p).derrotas
        + (calcular_estatisticas_todos_jogadores df p).empates
      = (calcular_estatisticas_todos_jogadores df p).jogos_total ∧
    (calcular_estatisticas_todos_jogadores df p).over_25_ft_hits
        + (calcular_estatisticas_todos_jogadores df p).under_25_ft_hits
      = (calcular_estatisticas_todos_jogadores df p).jogos_total ∧
    ((∃ r ∈ df, participa p r) →
      1 ≤ (calcular_estatisticas_todos_jogadores df p).jogos_total) := by
  have hj := todos_counter_total (fun s => s.jogos_total)
    (fun s r casa => updLado_jogos s r casa) rfl df p
  have hvde := todos_counter_total (fun s => s.vitorias + s.derrotas + s.empates)
    (fun s r casa => by
      cases casa <;> simp [updLado] <;> split_ifs <;> omega) rfl df p
  have hou := todos_counter_total (fun s => s.over_25_ft_hits + s.under_25_ft_hits)
    (fun s r casa => by
      cases casa <;> simp [updLado] <;> split_ifs <;> omega) rfl df p
  refine ⟨by rw [hvde, hj], by rw [hou, hj], fun hex => ?_⟩
  obtain ⟨r, hr, hpr⟩ := hex
  rw [hj]
  have hmem : participaMult p r ∈ df.map (fun r => participaMult p r) :=
    List.mem_map_of_mem _ hr
  have hle := List.single_le_sum (fun x _ => Nat.zero_le x) _ hmem
  have hpos := participaMult_pos hpr
  omega

/-- Witness for `todos_invariantes` on the example table. -/
theorem todos_invariantes_witness :
    1 ≤ (calcular_estatisticas_todos_jogadores exemploC1 "A").jogos_total :=
  (todos_invariantes exemploC1 "A").2.2
    ⟨⟨"d1", "GT 12 Min", "A", "B", 1, 0, 2, 1⟩, by decide, by decide⟩

/-- Percentages of a successful recency-window call are within `[0, 100]`
and the window is non-empty. -/
lemma recent_pcts_bounded (df : List Match) (player : String) (n : Nat)
    (s : RecentStats) (hrec : get_recent_player_stats df player n = some s) :
    1 ≤ s.jogos_recentes ∧
    (0 ≤ s.pct_over_05_ht ∧ s.pct_over_05_ht ≤ 100) ∧
    (0 ≤ s.pct_over_15_ht ∧ s.pct_over_15_ht ≤ 100) ∧
    (0 ≤ s.pct_over_25_ht ∧ s.pct_over_25_ht ≤ 100) ∧
    (0 ≤ s.pct_btts_ht ∧ s.pct_btts_ht ≤ 100) ∧
    (0 ≤ s.pct_over_05_ft ∧ s.pct_over_05_ft ≤ 100) ∧
    (0 ≤ s.pct_over_15_ft ∧ s.pct_over_15_ft ≤ 100) ∧
    (0 ≤ s.pct_over_25_ft ∧ s.pct_over_25_ft ≤ 100) ∧
    (0 ≤ s.pct_over_35_ft ∧ s.pct_over_35_ft ≤ 100) ∧
    (0 ≤ s.pct_over_45_ft ∧ s.pct_over_45_ft ≤ 100) ∧
    (0 ≤ s.pct_over_55_ft ∧ s.pct_over_55_ft ≤ 100) ∧
    (0 ≤ s.pct_over_65_ft ∧ s.pct_over_65_ft ≤ 100) ∧
    (0 ≤ s.pct_btts_ft ∧ s.pct_btts_ft ≤ 100) ∧
    (0 ≤ s.pct_under_25_ft ∧ s.pct_under_25_ft ≤ 100) := by
  unfold get_recent_player_stats at hrec
  by_cases hemp : (playerGames df player n).isEmpty
  · rw [if_pos hemp] at hrec
    exact absurd hrec (by simp)
  · rw [if_neg hemp] at hrec
    injection hrec with hs
    subst hs
    have hlen : 0 < (playerGames df player n).length := by
      cases hpg : playerGames df player n with
      | nil => rw [hpg] at hemp; exact absurd rfl hemp
      | cons a t => simp
    have r0 : (recentCountsDe df player n).over_05_ht_hits ≤ (playerGames df player n).length := by
      have hh := recent_counter_le player (fun c => c.over_05_ht_hits)
        (fun st r => (recentStep_le player st r).1) (playerGames df player n) recentInit
      simpa [recentCountsDe, recentInit, zerosRecent] using hh
    have r1 : (recentCountsDe df player n).over_15_ht_hits ≤ (playerGames df player n).length := by
      have hh := recent_counter_le player (fun c => c.over_15_ht_hits)
        (fun st r => (recentStep_le player st r).2.1) (playerGames df player n) recentInit
      simpa [recentCountsDe, recentInit, zerosRecent] using hh
    have r2 : (recentCountsDe df player n).over_25_ht_hits ≤ (playerGames df player n).length := by
      have hh := recent_counter_le player (fun c => c.over_25_ht_hits)
        (fun st r => (recentStep_le player st r).2.2.1) (playerGames df player n) recentInit
      simpa [recentCountsDe, recentInit, zerosRecent] using hh
    have r3 : (recentCountsDe df player n).btts_ht_hits ≤ (playerGames df player n).length := by
      have hh := recent_counter_le player (fun c => c.btts_ht_hits)
        (fun st r => (recentStep_le player st r).2.2.2.1) (playerGames df player n) recentInit
      simpa [recentCountsDe, recentInit, zerosRecent] using hh
    have r4 : (recentCountsDe df player n).over_05_ft_hits ≤ (playerGames df player n).length := by
      have hh := recent_counter_le player (fun c => c.over_05_ft_hits)
        (fun st r => (recentStep_le player st r).2.2.2.2.1) (playerGames df player n) recentInit
      simpa [recentCountsDe, recentInit, zerosRecent] using hh
    have r5 : (recentCountsDe df player n).over_15_ft_hits ≤ (playerGames df player n).length := by
      have hh := recent_counter_le player (fun c => c.over_15_ft_hits)
        (fun st r => (recentStep_le player st r).2.2.2.2.2.1) (playerGames df player n) recentInit
      simpa [recentCountsDe, recentInit, zerosRecent] using hh
    have r6 : (recentCountsDe df player n).over_25_ft_hits ≤ (playerGames df player n).length := by
      have hh := recent_counter_le player (fun c => c.over_25_ft_hits)
        (fun st r => (recentStep_le player st r).2.2.2.2.2.2.1) (playerGames df player n) recentInit
      simpa [recentCountsDe, recentInit, zerosRecent] using hh
    have r7 : (recentCountsDe df player n).over_35_ft_hits ≤ (playerGames df player n).length := by
      have hh := recent_counter_le player (fun c => c.over_35_ft_hits)
        (fun st r => (recentStep_le player st r).2.2.2.2.2.2.2.1) (playerGames df player n) recentInit
      simpa [recentCountsDe, recentInit, zerosRecent] using hh
    have r8 : (recentCountsDe df player n).over_45_ft_hits ≤ (playerGames df player n).length := by
      have hh := recent_counter_le player (fun c => c.over_45_ft_hits)
        (fun st r => (recentStep_le player st r).2.2.2.2.2.2.2.2.1) (playerGames df player n) recentInit
      simpa [recentCountsDe, recentInit, zerosRecent] using hh
    have r9 : (recentCountsDe df player n).over_55_ft_hits ≤ (playerGames df player n).length := by
      have hh := recent_counter_le player (fun c => c.over_55_ft_hits)
        (fun st r => (recentStep_le player st r).2.2.2.2.2.2.2.2.2.1) (playerGames df player n) recentInit
      simpa [recentCountsDe, recentInit, zerosRecent] using hh
    have r10 : (recentCountsDe df player n).over_65_ft_hits ≤ (playerGames df player n).length := by
      have hh := recent_counter_le player (fun c => c.over_65_ft_hits)
        (fun st r => (recentStep_le player st r).2.2.2.2.2.2.2.2.2.2.1) (playerGames df player n) recentInit
      simpa [recentCountsDe, recentInit, zerosRecent] using hh
    have r11 : (recentCountsDe df player n).btts_ft_hits ≤ (playerGames df player n).length := by
      have hh := recent_counter_le player (fun c => c.btts_ft_hits)
        (fun st r => (recentStep_le player st r).2.2.2.2.2.2.2.2.2.2.2.1) (playerGames df player n) recentInit
      simpa [recentCountsDe, recentInit, zerosRecent] using hh
    have r12 : (recentCountsDe df player n).under_25_ft_hits ≤ (playerGames df player n).length := by
      have hh := recent_counter_le player (fun c => c.under_25_ft_hits)
        (fun st r => (recentStep_le player st r).2.2.2.2.2.2.2.2.2.2.2.2) (playerGames df player n) recentInit
      simpa [recentCountsDe, recentInit, zerosRecent] using hh
    exact ⟨hlen,
      ⟨pctDiv_nonneg _ _, pctDiv_le_100 r0⟩,
      ⟨pctDiv_nonneg _ _, pctDiv_le_100 r1⟩,
      ⟨pctDiv_nonneg _ _, pctDiv_le_100 r2⟩,
      ⟨pctDiv_nonneg _ _, pctDiv_le_100 r3⟩,
      ⟨pctDiv_nonneg _ _, pctDiv_le_100 r4⟩,
      ⟨pctDiv_nonneg _ _, pctDiv_le_100 r5⟩,
      ⟨pctDiv_nonneg _ _, pctDiv_le_100 r6⟩,
      ⟨pctDiv_nonneg _ _, pctDiv_le_100 r7⟩,
      ⟨pctDiv_nonneg _ _, pctDiv_le_100 r8⟩,
      ⟨pctDiv_nonneg _ _, pctDiv_le_100 r9⟩,
      ⟨pctDiv_nonneg _ _, pctDiv_le_100 r10⟩,
      ⟨pctDiv_nonneg _ _, pctDiv_le_100 r11⟩,
      ⟨pctDiv_nonneg _ _, pctDiv_le_100 r12⟩⟩

/-- C2: every derived hit-rate column of
`calcular_estatisticas_todos_jogadores` lies in `[0, 100]` when the
player's game count is positive, every rate and goal average is exactly 0
when the game count is zero, and every percentage of a successful
`get_recent_player_stats` call lies in `[0, 100]` with a positive window;
all divisions are total (`pctDiv`/`mediaDiv` map the zero denominator to 0,
as the `fillna(0)` does). -/
theorem rates_bounded (df : List Match) (p q player : String) (n : Nat)
    (s : RecentStats)
    (_hpos : 0 < (calcular_estatisticas_todos_jogadores df p).jogos_total)
    (hzero : (calcular_estatisticas_todos_jogadores df q).jogos_total = 0)
    (hrec : get_recent_player_stats df player n = some s) :
    ((0 ≤ winRate (calcular_estatisticas_todos_jogadores df p) ∧ winRate (calcular_estatisticas_todos_jogadores df p) ≤ 100) ∧
    (0 ≤ derrotaRate (calcular_estatisticas_todos_jogadores df p) ∧ derrotaRate (calcular_estatisticas_todos_jogadores df p) ≤ 100) ∧
    (0 ≤ cleanSheetsPct (calcular_estatisticas_todos_jogadores df p) ∧ cleanSheetsPct (calcular_estatisticas_todos_jogadores df p) ≤ 100) ∧
    (0 ≤ over05HTPct (calcular_estatisticas_todos_jogadores df p) ∧ over05HTPct (calcular_estatisticas_todos_jogadores df p) ≤ 100) ∧
    (0 ≤ over15HTPct (calcular_estatisticas_todos_jogadores df p) ∧ over15HTPct (calcular_estatisticas_todos_jogadores df p) ≤ 100) ∧
    (0 ≤ over25HTPct (calcular_estatisticas_todos_jogadores df p) ∧ over25HTPct (calcular_estatisticas_todos_jogadores df p) ≤ 100) ∧
    (0 ≤ bttsHTPct (calcular_estatisticas_todos_jogadores df p) ∧ bttsHTPct (calcular_estatisticas_todos_jogadores df p) ≤ 100) ∧
    (0 ≤ over05FTPct (calcular_estatisticas_todos_jogadores df p) ∧ over05FTPct (calcular_estatisticas_todos_jogadores df p) ≤ 100) ∧
    (0 ≤ over15FTPct (calcular_estatisticas_todos_jogadores df p) ∧ over15FTPct (calcular_estatisticas_todos_jogadores df p) ≤ 100) ∧
    (0 ≤ over25FTPct (calcular_estatisticas_todos_jogadores df p) ∧ over25FTPct (calcular_estatisticas_todos_jogadores df p) ≤ 100) ∧
    (0 ≤ over35FTPct (calcular_estatisticas_todos_jogadores df p) ∧ over35FTPct (calcular_estatisticas_todos_jogadores df p) ≤ 100) ∧
    (0 ≤ over45FTPct (calcular_estatisticas_todos_jogadores df p) ∧ over45FTPct (calcular_estatisticas_todos_jogadores df p) ≤ 100) ∧
    (0 ≤ over55FTPct (calcular_estatisticas_todos_jogadores df p) ∧ over55FTPct (calcular_estatisticas_todos_jogadores df p) ≤ 100) ∧
    (0 ≤ over65FTPct (calcular_estatisticas_todos_jogadores df p) ∧ over65FTPct (calcular_estatisticas_todos_jogadores df p) ≤ 100) ∧
    (0 ≤ bttsFTPct (calcular_estatisticas_todos_jogadores df p) ∧ bttsFTPct (calcular_estatisticas_todos_jogadores df p) ≤ 100) ∧
    (0 ≤ under25FTPct (calcular_estatisticas_todos_jogadores df p) ∧ under25FTPct (calcular_estatisticas_todos_jogadores df p) ≤ 100) ∧
    winRate (calcular_estatisticas_todos_jogadores df q) = 0 ∧
    derrotaRate (calcular_estatisticas_todos_jogadores df q) = 0 ∧
    cleanSheetsPct (calcular_estatisticas_todos_jogadores df q) = 0 ∧
    over05HTPct (calcular_estatisticas_todos_jogadores df q) = 0 ∧
    over15HTPct (calcular_estatisticas_todos_jogadores df q) = 0 ∧
    over25HTPct (calcular_estatisticas_todos_jogadores df q) = 0 ∧
    bttsHTPct (calcular_estatisticas_todos_jogadores df q) = 0 ∧
    over05FTPct (calcular_estatisticas_todos_jogadores df q) = 0 ∧
    over15FTPct (calcular_estatisticas_todos_jogadores df q) = 0 ∧
    over25FTPct (calcular_estatisticas_todos_jogadores df q) = 0 ∧
    over35FTPct (calcular_estatisticas_todos_jogadores df q) = 0 ∧
    over45FTPct (calcular_estatisticas_todos_jogadores df q) = 0 ∧
    over55FTPct (calcular_estatisticas_todos_jogadores df q) = 0 ∧
    over65FTPct (calcular_estatisticas_todos_jogadores df q) = 0 ∧
    bttsFTPct (calcular_estatisticas_todos_jogadores df q) = 0 ∧
    under25FTPct (calcular_estatisticas_todos_jogadores df q) = 0 ∧
    golsMarcadosMedia (calcular_estatisticas_todos_jogadores df q) = 0 ∧
    golsSofridosMedia (calcular_estatisticas_todos_jogadores df q) = 0 ∧
    1 ≤ s.jogos_recentes ∧
    (0 ≤ s.pct_over_05_ht ∧ s.pct_over_05_ht ≤ 100) ∧
    (0 ≤ s.pct_over_15_ht ∧ s.pct_over_15_ht ≤ 100) ∧
    (0 ≤ s.pct_over_25_ht ∧ s.pct_over_25_ht ≤ 100) ∧
    (0 ≤ s.pct_btts_ht ∧ s.pct_btts_ht ≤ 100) ∧
    (0 ≤ s.pct_over_05_ft ∧ s.pct_over_05_ft ≤ 100) ∧
    (0 ≤ s.pct_over_15_ft ∧ s.pct_over_15_ft ≤ 100) ∧
    (0 ≤ s.pct_over_25_ft ∧ s.pct_over_25_ft ≤ 100) ∧
    (0 ≤ s.pct_over_35_ft ∧ s.pct_over_35_ft ≤ 100) ∧
    (0 ≤ s.pct_over_45_ft ∧ s.pct_over_45_ft ≤ 100) ∧
    (0 ≤ s.pct_over_55_ft ∧ s.pct_over_55_ft ≤ 100) ∧
    (0 ≤ s.pct_over_65_ft ∧ s.pct_over_65_ft ≤ 100) ∧
    (0 ≤ s.pct_btts_ft ∧ s.pct_btts_ft ≤ 100) ∧
    (0 ≤ s.pct_under_25_ft ∧ s.pct_under_25_ft ≤ 100)) := by
  have b0 := todos_hits_le_jogos (fun s => s.vitorias)
    (fun s r casa => by cases casa <;> (simp [updLado]; split_ifs <;> omega)) rfl df p
  have b1 := todos_hits_le_jogos (fun s => s.derrotas)
    (fun s r casa => by cases casa <;> (simp [updLado]; split_ifs <;> omega)) rfl df p
  have b2 := todos_hits_le_jogos (fun s => s.clean_sheets)
    (fun s r casa => by cases casa <;> (simp [updLado]; split_ifs <;> omega)) rfl df p
  have b3 := todos_hits_le_jogos (fun s => s.over_05_ht_hits)
    (fun s r casa => by cases casa <;> (simp [updLado]; split_ifs <;> omega)) rfl df p
  have b4 := todos_hits_le_jogos (fun s => s.over_15_ht_hits)
    (fun s r casa => by cases casa <;> (simp [updLado]; split_ifs <;> omega)) rfl df p
  have b5 := todos_hits_le_jogos (fun s => s.over_25_ht_hits)
    (fun s r casa => by cases casa <;> (simp [updLado]; split_ifs <;> omega)) rfl df p
  have b6 := todos_hits_le_jogos (fun s => s.btts_ht_hits)
    (fun s r casa => by cases casa <;> (simp [updLado]; split_ifs <;> omega)) rfl df p
  have b7 := todos_hits_le_jogos (fun s => s.over_05_ft_hits)
    (fun s r casa => by cases casa <;> (simp [updLado]; split_ifs <;> omega)) rfl df p
  have b8 := todos_hits_le_jogos (fun s => s.over_15_ft_hits)
    (fun s r casa => by cases casa <;> (simp [updLado]; split_ifs <;> omega)) rfl df p
  have b9 := todos_hits_le_jogos (fun s => s.over_25_ft_hits)
    (fun s r casa => by cases casa <;> (simp [updLado]; split_ifs <;> omega)) rfl df p
  have b10 := todos_hits_le_jogos (fun s => s.over_35_ft_hits)
    (fun s r casa => by cases casa <;> (simp [updLado]; split_ifs <;> omega)) rfl df p
  have b11 := todos_hits_le_jogos (fun s => s.over_45_ft_hits)
    (fun s r casa => by cases casa <;> (simp [updLado]; split_ifs <;> omega)) rfl df p
  have b12 := todos_hits_le_jogos (fun s => s.over_55_ft_hits)
    (fun s r casa => by cases casa <;> (simp [updLado]; split_ifs <;> omega)) rfl df p
  have b13 := todos_hits_le_jogos (fun s => s.over_65_ft_hits)
    (fun s r casa => by cases casa <;> (simp [updLado]; split_ifs <;> omega)) rfl df p
  have b14 := todos_hits_le_jogos (fun s => s.btts_ft_hits)
    (fun s r casa => by cases casa <;> (simp [updLado]; split_ifs <;> omega)) rfl df p
  have b15 := todos_hits_le_jogos (fun s => s.under_25_ft_hits)
    (fun s r casa => by cases casa <;> (simp [updLado]; split_ifs <;> omega)) rfl df p
  refine ⟨?_, ?_, ?_, ?_, ?_, ?_, ?_, ?_, ?_, ?_, ?_, ?_, ?_, ?_, ?_, ?_,
    ?_, ?_, ?_, ?_, ?_, ?_, ?_, ?_, ?_, ?_, ?_, ?_, ?_, ?_, ?_, ?_, ?_, ?_, ?_⟩
  · exact ⟨pctDiv_nonneg _ _, pctDiv_le_100 b0⟩
  · exact ⟨pctDiv_nonneg _ _, pctDiv_le_100 b1⟩
  · exact ⟨pctDiv_nonneg _ _, pctDiv_le_100 b2⟩
  · exact ⟨pctDiv_nonneg _ _, pctDiv_le_100 b3⟩
  · exact ⟨pctDiv_nonneg _ _, pctDiv_le_100 b4⟩
  · exact ⟨pctDiv_nonneg _ _, pctDiv_le_100 b5⟩
  · exact ⟨pctDiv_nonneg _ _, pctDiv_le_100 b6⟩
  · exact ⟨pctDiv_nonneg _ _, pctDiv_le_100 b7⟩
  · exact ⟨pctDiv_nonneg _ _, pctDiv_le_100 b8⟩
  · exact ⟨pctDiv_nonneg _ _, pctDiv_le_100 b9⟩
  · exact ⟨pctDiv_nonneg _ _, pctDiv_le_100 b10⟩
  · exact ⟨pctDiv_nonneg _ _, pctDiv_le_100 b11⟩
  · exact ⟨pctDiv_nonneg _ _, pctDiv_le_100 b12⟩
  · exact ⟨pctDiv_nonneg _ _, pctDiv_le_100 b13⟩
  · exact ⟨pctDiv_nonneg _ _, pctDiv_le_100 b14⟩
  · exact ⟨pctDiv_nonneg _ _, pctDiv_le_100 b15⟩
  · simp [winRate, pctDiv, hzero]
  · simp [derrotaRate, pctDiv, hzero]
  · simp [cleanSheetsPct, pctDiv, hzero]
  · simp [over05HTPct, pctDiv, hzero]
  · simp [over15HTPct, pctDiv, hzero]
  · simp [over25HTPct, pctDiv, hzero]
  · simp [bttsHTPct, pctDiv, hzero]
  · simp [over05FTPct, pctDiv, hzero]
  · simp [over15FTPct, pctDiv, hzero]
  · simp [over25FTPct, pctDiv, hzero]
  · simp [over35FTPct, pctDiv, hzero]
  · simp [over45FTPct, pctDiv, hzero]
  · simp [over55FTPct, pctDiv, hzero]
  · simp [over65FTPct, pctDiv, hzero]
  · simp [bttsFTPct, pctDiv, hzero]
  · simp [under25FTPct, pctDiv, hzero]
  · simp [golsMarcadosMedia, mediaDiv, hzero]
  · simp [golsSofridosMedia, mediaDiv, hzero]
  · exact recent_pcts_bounded df player n s hrec

/-- Witness for `rates_bounded` on the example table. -/
theorem rates_bounded_witness :
    0 ≤ winRate (calcular_estatisticas_todos_jogadores exemploC1 "A") ∧
    winRate (calcular_estatisticas_todos_jogadores exemploC1 "A") ≤ 100 :=
  (rates_bounded exemploC1 "A" "Z" "A" 5 recentExemplo (by decide) (by decide) rfl).1

/-- C7: in the chronological loop of `get_recent_player_stats`, each
current-streak counter grows by 1 while consecutive games share the same
outcome and resets to 1 (for the new outcome) or 0 (for the others) the
instant a game's outcome differs from the immediately preceding one; the
returned counters are exactly the fold of the loop over the window, and
the outcome sequence win, win, loss, win ends with win-streak 1. -/
theorem streak_semantics :
    (∀ (player : String) (l : List Match) (r : Match),
      (((l.foldl (recentStep player) recentInit).last_result
          = some (resultadoDe player r)) →
        seqDe (((l ++ [r]).foldl (recentStep player) recentInit).stats)
            (resultadoDe player r)
          = seqDe ((l.foldl (recentStep player) recentInit).stats)
              (resultadoDe player r) + 1 ∧
        ∀ o, o ≠ resultadoDe player r →
          seqDe (((l ++ [r]).foldl (recentStep player) recentInit).stats) o
            = seqDe ((l.foldl (recentStep player) recentInit).stats) o) ∧
      (∀ o₀, (l.foldl (recentStep player) recentInit).last_result = some o₀ →
        resultadoDe player r ≠ o₀ →
        seqDe (((l ++ [r]).foldl (recentStep player) recentInit).stats)
            (resultadoDe player r) = 1 ∧
        ∀ o, o ≠ resultadoDe player r →
          seqDe (((l ++ [r]).foldl (recentStep player) recentInit).stats) o = 0) ∧
      (((l.foldl (recentStep player) recentInit).last_btts
          = some (bttsDe player r)) →
        ((l ++ [r]).foldl (recentStep player) recentInit).stats.sequencia_btts
          = (l.foldl (recentStep player) recentInit).stats.sequencia_btts
            + (if bttsDe player r then 1 else 0)) ∧
      (((l.foldl (recentStep player) recentInit).last_btts
          = some (!bttsDe player r)) →
        ((l ++ [r]).foldl (recentStep player) recentInit).stats.sequencia_btts
          = (if bttsDe player r then 1 else 0)) ∧
      (((l.foldl (recentStep player) recentInit).last_over_25_ft
          = some (over25De r)) →
        ((l ++ [r]).foldl (recentStep player) recentInit).stats.sequencia_over_25_ft
          = (l.foldl (recentStep player) recentInit).stats.sequencia_over_25_ft
            + (if over25De r then 1 else 0)) ∧
      (((l.foldl (recentStep player) recentInit).last_over_25_ft
          = some (!over25De r)) →
        ((l ++ [r]).foldl (recentStep player) recentInit).stats.sequencia_over_25_ft
          = (if over25De r then 1 else 0))) ∧
    (∀ (df : List Match) (player : String) (n : Nat) (s : RecentStats),
      get_recent_player_stats df player n = some s →
      s.counts = ((playerGames df player n).foldl (recentStep player) recentInit).stats) ∧
    ((exemploC7.foldl (recentStep "A") recentInit).stats.sequencia_vitorias = 1 ∧
     (exemploC7.foldl (recentStep "A") recentInit).stats.sequencia_derrotas = 0 ∧
     (exemploC7.foldl (recentStep "A") recentInit).stats.sequencia_empates = 0) := by
  refine ⟨fun player l r => ?_, fun df player n s hrec => ?_, by decide, by decide, by decide⟩
  · have hfold : (l ++ [r]).foldl (recentStep player) recentInit
        = recentStep player (l.foldl (recentStep player) recentInit) r := by
      rw [List.foldl_append]
      rfl
    refine ⟨fun h => ⟨?_, fun o ho => ?_⟩, fun o₀ h hne => ⟨?_, fun o ho => ?_⟩,
      fun h => ?_, fun h => ?_, fun h => ?_, fun h => ?_⟩
    · cases hc : resultadoDe player r <;>
        simp_all [hfold, seqDe, recentStep_seq_vitorias, recentStep_seq_derrotas,
          recentStep_seq_empates]
    · cases o <;> cases hc : resultadoDe player r <;>
        simp_all [hfold, seqDe, recentStep_seq_vitorias, recentStep_seq_derrotas,
          recentStep_seq_empates]
    · have hcond : ¬((l.foldl (recentStep player) recentInit).last_result = none ∨
          (l.foldl (recentStep player) recentInit).last_result
            = some (resultadoDe player r)) := by
        rw [h]
        simp only [reduceCtorEq, Option.some.injEq, false_or]
        exact fun he => hne he.symm
      cases hc : resultadoDe player r <;>
        simp_all [hfold, seqDe, recentStep_seq_vitorias, recentStep_seq_derrotas,
          recentStep_seq_empates]
    · have hcond : ¬((l.foldl (recentStep player) recentInit).last_result = none ∨
          (l.foldl (recentStep player) recentInit).last_result
            = some (resultadoDe player r)) := by
        rw [h]
        simp only [reduceCtorEq, Option.some.injEq, false_or]
        exact fun he => hne he.symm
      cases o <;> cases hc : resultadoDe player r <;>
        simp_all [hfold, seqDe, recentStep_seq_vitorias, recentStep_seq_derrotas,
          recentStep_seq_empates]
    · rw [hfold, recentStep_seq_btts, if_pos (Or.inr h)]
      cases hb : bttsDe player r <;> simp
    · rw [hfold, recentStep_seq_btts,
        if_neg (by rw [h]; cases hb : bttsDe player r <;> simp)]
    · rw [hfold, recentStep_seq_over25, if_pos (Or.inr h)]
      cases hb : over25De r <;> simp
    · rw [hfold, recentStep_seq_over25,
        if_neg (by rw [h]; cases hb : over25De r <;> simp)]
  · unfold get_recent_player_stats at hrec
    by_cases hemp : (playerGames df player n).isEmpty
    · rw [if_pos hemp] at hrec
      exact absurd hrec (by simp)
    · rw [if_neg hemp] at hrec
      injection hrec with hs
      subst hs
      rfl

/-- Witness for `streak_semantics`: after two consecutive wins the win
streak is the previous streak plus one. -/
theorem streak_semantics_witness :
    seqDe ((([(⟨"1", "GT 12 Min", "A", "B", 0, 0, 2, 0⟩ : Match)] ++
        [(⟨"2", "GT 12 Min", "A", "C", 0, 0, 1, 0⟩ : Match)]).foldl
          (recentStep "A") recentInit).stats)
        (resultadoDe "A" ⟨"2", "GT 12 Min", "A", "C", 0, 0, 1, 0⟩)
      = seqDe (([(⟨"1", "GT 12 Min", "A", "B", 0, 0, 2, 0⟩ : Match)].foldl
          (recentStep "A") recentInit).stats)
          (resultadoDe "A" ⟨"2", "GT 12 Min", "A", "C", 0, 0, 1, 0⟩) + 1 :=
  ((streak_semantics.1 "A" [(⟨"1", "GT 12 Min", "A", "B", 0, 0, 2, 0⟩ : Match)]
      (⟨"2", "GT 12 Min", "A", "C", 0, 0, 1, 0⟩ : Match)).1 (by decide)).1

/-- C8: `gerar_ranking` keeps exactly the players with
`jogos_total ≥ min_jogos` (source default 10), sorted by the requested
metric (descending unless `ascendente`), truncated to at most `top_n`
(source default 20) rows; when no player passes the filter it returns the
single-row `N/A` placeholder, never an empty table. -/
theorem gerar_ranking_spec (df : List StatsRow) (metrica : String)
    (cols : List String) (asc : Bool) (min_jogos top_n : Nat) :
    ((df.filter (fun r => decide (min_jogos ≤ r.jogos_total))) = [] →
      gerar_ranking df metrica cols asc min_jogos top_n
        = RankingResult.placeholder (linha_na cols) ∧
      (linha_na cols).length = 1 + (cols.filter (fun c => c ≠ "Jogador")).length ∧
      ("Jogador", "N/A") ∈ linha_na cols ∧
      ∀ cell ∈ linha_na cols, cell.2 = "N/A") ∧
    (∀ rows, gerar_ranking df metrica cols asc min_jogos top_n
        = RankingResult.table rows →
      rows.length
        = min (df.filter (fun r => decide (min_jogos ≤ r.jogos_total))).length top_n ∧
      (∀ r ∈ rows, min_jogos ≤ r.jogos_total) ∧
      List.Pairwise (fun a b : StatsRow => metricaLE asc (a.valores metrica) (b.valores metrica))
        rows ∧
      ((df.filter (fun r => decide (min_jogos ≤ r.jogos_total))).length ≤ top_n →
        (rows.map (fun r => (r.jogos_total, r.valores))).Perm
          ((df.filter (fun r => decide (min_jogos ≤ r.jogos_total))).map
              (fun r => (r.jogos_total, r.valores))))) := by
  constructor
  · intro h
    refine ⟨?_, ?_, ?_, ?_⟩
    · unfold gerar_ranking
      rw [h]
      rfl
    · simp [linha_na, Nat.add_comm]
    · exact List.mem_cons_self _ _
    · intro cell hc
      rcases List.mem_cons.mp hc with hc | hc
      · rw [hc]
      · obtain ⟨c, _, rfl⟩ := List.mem_map.mp hc
        rfl
  · intro rows heq
    unfold gerar_ranking at heq
    by_cases hemp : (df.filter (fun r => decide (min_jogos ≤ r.jogos_total))).isEmpty
    · rw [if_pos hemp] at heq
      exact absurd heq (by simp)
    · rw [if_neg hemp] at heq
      injection heq with hs
      subst hs
      refine ⟨?_, ?_, ?_, ?_⟩
      · rw [aplicar_medalhas_length, List.length_take, List.length_insertionSort,
          Nat.min_comm]
      · intro r hr
        obtain ⟨r', hr', hj, _⟩ := aplicar_medalhas_mem hr
        have hr'' : r' ∈ List.insertionSort (rankLE asc metrica)
            (df.filter (fun r => decide (min_jogos ≤ r.jogos_total))) :=
          List.take_subset _ _ hr'
        have hr3 : r' ∈ df.filter (fun r => decide (min_jogos ≤ r.jogos_total)) :=
          (List.perm_insertionSort (rankLE asc metrica) _).subset hr''
        have := List.of_mem_filter hr3
        rw [← hj]
        exact of_decide_eq_true this
      · apply aplicar_medalhas_pairwise
        exact (List.sorted_insertionSort (rankLE asc metrica) _).sublist
          (List.take_sublist _ _)
      · intro hlen
        have htake : (List.insertionSort (rankLE asc metrica)
            (df.filter (fun r => decide (min_jogos ≤ r.jogos_total)))).take top_n
            = List.insertionSort (rankLE asc metrica)
                (df.filter (fun r => decide (min_jogos ≤ r.jogos_total))) := by
          apply List.take_of_length_le
          rw [List.length_insertionSort]
          exact hlen
        rw [htake, aplicar_medalhas, aplicar_medalhas_aux_proj]
        exact (List.perm_insertionSort (rankLE asc metrica) _).map _

/-- Witness for `gerar_ranking_spec` on a one-row table passing the
default minimum. -/
theorem gerar_ranking_spec_witness :
    rowsW.length
      = min ((dfW.filter (fun r => decide (10 ≤ r.jogos_total))).length) 20 :=
  ((gerar_ranking_spec dfW "M" ["Jogador"] false 10 20).2 rowsW rfl).1

end FifaApp
